import Mathlib

/-!
Verification development for the abyss-diver submarine game.

The JavaScript sources are shallowly embedded over exact rational
arithmetic (`ℚ`): JavaScript numbers become rationals, `Date.now()`
becomes an explicit `now : ℚ` parameter, the `Map` used for collision
cooldowns becomes an association list, and the nondeterministic inputs
of a tick (pressed keys, elapsed time, random rolls, `Math.sin`) become
explicit parameters of the tick function.
-/

/-- Axis-aligned rectangle, as the `{x, y, width, height}` records used
throughout the game code. -/
structure Rect where
  x : ℚ
  y : ℚ
  width : ℚ
  height : ℚ
deriving DecidableEq, Repr

/-- `CollisionDetector.checkAABB`: strict AABB overlap test. -/
def checkAABB (rect1 rect2 : Rect) : Bool :=
  decide (rect1.x < rect2.x + rect2.width) &&
  decide (rect1.x + rect1.width > rect2.x) &&
  decide (rect1.y < rect2.y + rect2.height) &&
  decide (rect1.y + rect1.height > rect2.y)

/-- `GameObject`: base record for monsters, obstacles and bubbles.
Positions are in world-frame coordinates. -/
structure GameObject where
  x : ℚ
  y : ℚ
  width : ℚ
  height : ℚ
  type : String
  velocityX : ℚ
  velocityY : ℚ
  health : ℚ
  speed : ℚ
  id : Nat
  visible : Bool
deriving DecidableEq, Repr

/-- The `GameObject` constructor: movement, combat and visibility fields
start at their defaults. -/
def GameObject.make (x y width height : ℚ) (type : String) : GameObject :=
  { x := x, y := y, width := width, height := height, type := type,
    velocityX := 0, velocityY := 0, health := 0, speed := 0, id := 0,
    visible := false }

/-- `GameObject.isOffScreen`: outside the horizontal band
`[-200, screenWidth + 200]`, or further than 1200 world units from the
player's current depth. (`screenHeight` is accepted and unused, as in
the source.) -/
def GameObject.isOffScreen (obj : GameObject) (screenWidth _screenHeight depth : ℚ) :
    Bool :=
  if obj.x < -200 ∨ obj.x > screenWidth + 200 then true
  else if |obj.y - depth| > 1200 then true
  else false

/-- `GameObject.getHitbox`: per-kind fractional shrink/offset of the
bounding box; unknown kinds fall through to the full bounding box. -/
def GameObject.getHitbox (obj : GameObject) : Rect :=
  let adj : ℚ × ℚ × ℚ × ℚ :=
    if obj.type = "shark" then
      (obj.width * 0.1, obj.height * 0.2, obj.width * 0.8, obj.height * 0.6)
    else if obj.type = "squid" then
      (obj.width * 0.2, obj.height * 0.1, obj.width * 0.6, obj.height * 0.8)
    else if obj.type = "angler" then
      (obj.width * 0.15, obj.height * 0.2, obj.width * 0.7, obj.height * 0.6)
    else if obj.type = "viper" then
      (obj.width * 0.05, obj.height * 0.1, obj.width * 0.9, obj.height * 0.8)
    else if obj.type = "rock" then
      (obj.width * 0.1, obj.height * 0.1, obj.width * 0.8, obj.height * 0.8)
    else if obj.type = "bubble" then
      (obj.width * 0.15, obj.height * 0.15, obj.width * 0.7, obj.height * 0.7)
    else
      (0, 0, obj.width, obj.height)
  { x := obj.x + adj.1, y := obj.y + adj.2.1,
    width := adj.2.2.1, height := adj.2.2.2 }

/-- `Submarine`: the player craft, positioned in screen coordinates. -/
structure Submarine where
  screenX : ℚ
  screenY : ℚ
  width : ℚ
  height : ℚ
  rotation : ℚ
  targetRotation : ℚ
  centerY : ℚ
  maxVerticalOffset : ℚ
  moveSpeed : ℚ
  hitboxOffsetX : ℚ
  hitboxOffsetY : ℚ
  hitboxWidth : ℚ
  hitboxHeight : ℚ
deriving DecidableEq, Repr

/-- The `Submarine` constructor: fixed motion limits and the fractional
hitbox (55% of width, 45% of height, offset into the hull). -/
def Submarine.make (x y width height : ℚ) : Submarine :=
  { screenX := x, screenY := y, width := width, height := height,
    rotation := 0, targetRotation := 0,
    centerY := y, maxVerticalOffset := 80, moveSpeed := 0.18,
    hitboxOffsetX := width * 0.225, hitboxOffsetY := height * 0.275,
    hitboxWidth := width * 0.55, hitboxHeight := height * 0.45 }

/-- The set of movement keys a tick of `Submarine.update` inspects
(`keys.has('a')` and so on in the source). -/
structure Keys where
  a : Bool
  d : Bool
  w : Bool
  s : Bool
deriving DecidableEq, Repr

/-- `Submarine.update`: horizontal motion with rotation lean, then the
two sequential vertical checks (the `s` branch runs after, and its
world offset overwrites, the `w` branch). Returns the updated submarine
and `worldOffsetY`. -/
def Submarine.update (sub : Submarine) (keys : Keys) (deltaTime : ℚ) :
    Submarine × ℚ :=
  let speed := sub.moveSpeed * deltaTime
  let hor : ℚ × ℚ :=
    if keys.a then
      (max 0 (sub.screenX - speed), max (-15) (sub.targetRotation - 1))
    else if keys.d then
      (min (800 - sub.width) (sub.screenX + speed), min 15 (sub.targetRotation + 1))
    else
      (sub.screenX, sub.targetRotation * 0.9)
  let vert1 : ℚ × ℚ :=
    if keys.w then
      (max (sub.centerY - sub.maxVerticalOffset) (sub.screenY - speed * 0.5), speed)
    else
      (sub.screenY, 0)
  let vert2 : ℚ × ℚ :=
    if keys.s then
      (min (sub.centerY + sub.maxVerticalOffset) (vert1.1 + speed * 0.5), -speed)
    else
      vert1
  let rotation := sub.rotation + (hor.2 - sub.rotation) * 0.1
  ({ sub with screenX := hor.1, screenY := vert2.1,
              targetRotation := hor.2, rotation := rotation },
   vert2.2)

/-- `Submarine.getScreenHitbox`: the screen-frame hitbox of the craft. -/
def Submarine.getScreenHitbox (sub : Submarine) : Rect :=
  { x := sub.screenX + sub.hitboxOffsetX, y := sub.screenY + sub.hitboxOffsetY,
    width := sub.hitboxWidth, height := sub.hitboxHeight }

/-- `CollisionDetector.calculateDepthOffset`. -/
def calculateDepthOffset (depth cameraOffset : ℚ) : ℚ :=
  -depth + 300 + cameraOffset

/-- The depth offset computed inline by `Renderer.render` before
`ctx.translate(0, depthOffset)`. -/
def rendererDepthOffset (depth cameraOffset : ℚ) : ℚ :=
  -depth + 300 + cameraOffset

/-- `CollisionDetector.getWorldObjectScreenHitbox`: the object's base
hitbox with the depth offset added to its Y coordinate. -/
def getWorldObjectScreenHitbox (obj : GameObject) (depthOffset : ℚ) : Rect :=
  let baseHitbox := obj.getHitbox
  let screenY := baseHitbox.y + depthOffset
  { x := baseHitbox.x, y := screenY,
    width := baseHitbox.width, height := baseHitbox.height }

/-- The `collisionCooldown` map of the detector: entity id to the
timestamp of its last scored collision. -/
abbrev CooldownTable := List (Nat × ℚ)

/-- `cooldownDuration`: 100 ms. -/
def cooldownDuration : ℚ := 100

/-- Lookup of an id in the cooldown map (`Map.has` / `Map.get`). -/
def tableLookup : CooldownTable → Nat → Option ℚ
  | [], _ => none
  | p :: rest, i => if p.1 = i then some p.2 else tableLookup rest i

/-- Deletion of an id from the cooldown map (`Map.delete`). -/
def tableErase : CooldownTable → Nat → CooldownTable
  | [], _ => []
  | p :: rest, i => if p.1 = i then tableErase rest i else p :: tableErase rest i

/-- `Map.set`: replace any entry for this id. -/
def tableSet (t : CooldownTable) (id : Nat) (v : ℚ) : CooldownTable :=
  tableErase t id ++ [(id, v)]

/-- `CollisionDetector.isInCollisionCooldown`, with `Date.now()` passed
explicitly: expired entries are deleted on lookup, so the (possibly
shrunk) table is returned alongside the answer. -/
def isInCollisionCooldown (t : CooldownTable) (id : Nat) (now : ℚ) :
    Bool × CooldownTable :=
  match tableLookup t id with
  | none => (false, t)
  | some cooldownTime =>
      if now - cooldownTime ≥ cooldownDuration then (false, tableErase t id)
      else (true, t)

/-- `CollisionDetector.setCollisionCooldown`. -/
def setCollisionCooldown (t : CooldownTable) (id : Nat) (now : ℚ) : CooldownTable :=
  tableSet t id now

/-- One iteration of the `forEach` loop shared by
`checkMonsterCollisions` and `checkObstacleCollisions`: skip the object
while it is in cooldown, otherwise test its screen hitbox and stamp it
on a hit. -/
def collisionStep (subScreenHitbox : Rect) (depthOffset now : ℚ)
    (acc : List GameObject × CooldownTable) (obj : GameObject) :
    List GameObject × CooldownTable :=
  let cd := isInCollisionCooldown acc.2 obj.id now
  if cd.1 then (acc.1, cd.2)
  else
    let objScreenHitbox := getWorldObjectScreenHitbox obj depthOffset
    if checkAABB subScreenHitbox objScreenHitbox then
      (acc.1 ++ [obj], setCollisionCooldown cd.2 obj.id now)
    else (acc.1, cd.2)

/-- The shared body of `checkMonsterCollisions` and
`checkObstacleCollisions`: walk the list, skip objects in cooldown, and
stamp every reported collision. -/
def checkCooldownGatedCollisions (subScreenHitbox : Rect) (objs : List GameObject)
    (depthOffset : ℚ) (t : CooldownTable) (now : ℚ) :
    List GameObject × CooldownTable :=
  objs.foldl (collisionStep subScreenHitbox depthOffset now) ([], t)

/-- `CollisionDetector.checkMonsterCollisions`. -/
def checkMonsterCollisions (submarine : Submarine) (monsters : List GameObject)
    (depth cameraOffset : ℚ) (t : CooldownTable) (now : ℚ) :
    List GameObject × CooldownTable :=
  let subScreenHitbox := submarine.getScreenHitbox
  let depthOffset := calculateDepthOffset depth cameraOffset
  checkCooldownGatedCollisions subScreenHitbox monsters depthOffset t now

/-- `CollisionDetector.checkObstacleCollisions` (same body as the
monster pass, over the obstacle list). -/
def checkObstacleCollisions (submarine : Submarine) (obstacles : List GameObject)
    (depth cameraOffset : ℚ) (t : CooldownTable) (now : ℚ) :
    List GameObject × CooldownTable :=
  let subScreenHitbox := submarine.getScreenHitbox
  let depthOffset := calculateDepthOffset depth cameraOffset
  checkCooldownGatedCollisions subScreenHitbox obstacles depthOffset t now

/-- `CollisionDetector.checkBubbleCollisions`: every overlapping bubble
is reported; the cooldown map is neither read nor written. -/
def checkBubbleCollisions (submarine : Submarine) (bubbles : List GameObject)
    (depth cameraOffset : ℚ) (t : CooldownTable) :
    List GameObject × CooldownTable :=
  let subScreenHitbox := submarine.getScreenHitbox
  let depthOffset := calculateDepthOffset depth cameraOffset
  (bubbles.filter
    (fun bubble => checkAABB subScreenHitbox (getWorldObjectScreenHitbox bubble depthOffset)),
   t)

/-- The scalar game state (`this.gameState` in `Game.js`). -/
structure GameState where
  oxygen : ℚ
  energy : ℚ
  health : ℚ
  depth : ℚ
  score : ℚ
  sonarActive : Bool
  sonarCooldown : ℚ
deriving DecidableEq, Repr

/-- The upgrade flags (`this.upgrades`). -/
structure Upgrades where
  oxygenTank : Bool
  advancedSonar : Bool
  reinforcedHull : Bool
  turboThrust : Bool
deriving DecidableEq, Repr

/-- The parts of the `Game` object the simulation step reads or
mutates: scalar state, the player craft, the three entity lists, the
upgrade flags, spawn bookkeeping, run-control flags, the claimed
depth-reward set, and the collision detector's cooldown map.
Presentation-only state (renderer colors, particles, HUD) is out of
scope. -/
structure Game where
  gameState : GameState
  submarine : Submarine
  monsters : List GameObject
  obstacles : List GameObject
  bubbles : List GameObject
  upgrades : Upgrades
  nextMonsterId : Nat
  lastSpawnDepth : ℚ
  lastResourceUpdate : ℚ
  gameOverTriggered : Bool
  gameOverReason : String
  finalScore : ℚ
  menuOpen : Option String
  hint : String
  claimedRewards : List ℚ
  cooldown : CooldownTable

/-- `resourceUpdateInterval`: 50 ms between resource updates. -/
def resourceUpdateInterval : ℚ := 50

/-- A depth reward entry of `checkDepthRewards`. -/
structure Reward where
  depth : ℚ
  oxygen : ℚ
  points : ℚ
  message : String
deriving DecidableEq, Repr

/-- The fixed reward table of `checkDepthRewards`. -/
def rewardsList : List Reward :=
  [ { depth := 2000, oxygen := 20, points := 500,
      message := "Zona Batial alcançada!" },
    { depth := 4000, oxygen := 30, points := 1000,
      message := "Zona Abissal alcançada!" },
    { depth := 6000, oxygen := 40, points := 2000,
      message := "Zona Hadal alcançada!" } ]

/-- `Game.showHint` restricted to its state effect. -/
def showHint (text : String) (g : Game) : Game :=
  { g with hint := text }

/-- One iteration of the `rewards.forEach` loop in
`checkDepthRewards`: claim the reward if the depth qualifies and it was
not already claimed. -/
def applyReward (g : Game) (reward : Reward) : Game :=
  if g.gameState.depth ≥ reward.depth ∧ reward.depth ∉ g.claimedRewards then
    showHint reward.message
      { g with claimedRewards := g.claimedRewards ++ [reward.depth],
               gameState := { g.gameState with
                 oxygen := min 100 (g.gameState.oxygen + reward.oxygen),
                 score := g.gameState.score + reward.points } }
  else g

/-- The upgrade-unlock tail of `checkDepthRewards`. -/
def unlockUpgrades (g : Game) : Game :=
  let depth := g.gameState.depth
  let g := if depth ≥ 3000 ∧ ¬ g.upgrades.oxygenTank then
      showHint "Upgrade: Tanque de Oxigênio Expandido!"
        { g with upgrades := { g.upgrades with oxygenTank := true } }
    else g
  let g := if depth ≥ 5000 ∧ ¬ g.upgrades.advancedSonar then
      showHint "Upgrade: Sonar Avançado!"
        { g with upgrades := { g.upgrades with advancedSonar := true } }
    else g
  let g := if depth ≥ 7000 ∧ ¬ g.upgrades.reinforcedHull then
      showHint "Upgrade: Casco Reforçado!"
        { g with upgrades := { g.upgrades with reinforcedHull := true } }
    else g
  if depth ≥ 9000 ∧ ¬ g.upgrades.turboThrust then
    showHint "Upgrade: Propulsor Turbo!"
      { g with upgrades := { g.upgrades with turboThrust := true } }
  else g

/-- `Game.checkDepthRewards`: one-shot depth rewards guarded by the
claimed set, then the one-shot upgrade unlocks. -/
def checkDepthRewards (g : Game) : Game :=
  unlockUpgrades (rewardsList.foldl applyReward g)

/-- `Game.activateSonar` restricted to its state effect (the 3-second
`setTimeout` that clears `sonarActive` is an external timer). -/
def activateSonar (g : Game) : Game :=
  if g.gameState.energy ≥ 20 ∧ g.gameState.sonarCooldown ≤ 0 ∧ ¬ g.gameState.sonarActive then
    showHint "Sonar ativado!"
      { g with gameState := { g.gameState with
          energy := max 0 (g.gameState.energy -
            (if g.upgrades.advancedSonar then 10 else 20)),
          sonarActive := true,
          sonarCooldown := 5 } }
  else if g.gameState.energy < 20 then
    showHint "Energia insuficiente!" g
  else if g.gameState.sonarCooldown > 0 then
    showHint "Sonar em cooldown!" g
  else g

/-- `Game.endGame` restricted to its state effect. -/
def endGame (reason : String) (finalScore : ℚ) (g : Game) : Game :=
  { g with gameOverTriggered := true, gameOverReason := reason,
           finalScore := finalScore }

/-- The random draws `spawnMonsters` makes for one monster. -/
structure MonsterRand where
  typeIdx : Fin 4
  dirPositive : Bool
  yRand : ℚ
  vyRand : ℚ

/-- The per-tick inputs of `Game.update` that come from outside the
game state: elapsed time, pressed keys, the wall clock, the camera
offset read from the input handler, `Math.sin` (opaque to the
simulation), and the random draws of the spawn logic. -/
structure TickInput where
  deltaTime : ℚ
  keys : Keys
  now : ℚ
  cameraOffset : ℚ
  sinFn : ℚ → ℚ
  spawnJitter : ℚ
  monsterRand : Nat → MonsterRand
  obstacleRoll : Bool
  obstacleRand : Fin 4 → ℚ
  bubbleRoll : Bool
  bubbleRand : Fin 2 → ℚ

/-- Advance the submarine and shift all world objects by the returned
world offset (`Game.update`, submarine/world-motion section). -/
def stepSubmarineAndScroll (keys : Keys) (deltaTime : ℚ) (g : Game) : Game :=
  let r := g.submarine.update keys deltaTime
  let g1 := { g with submarine := r.1 }
  if r.2 ≠ 0 then
    { g1 with
      monsters := g1.monsters.map (fun m => { m with y := m.y + r.2 }),
      obstacles := g1.obstacles.map (fun o => { o with y := o.y + r.2 }),
      bubbles := g1.bubbles.map (fun b => { b with y := b.y + r.2 }) }
  else g1

/-- Depth advance and reward check while the descend key is held
(`Game.update`, depth section). -/
def stepDepth (keys : Keys) (g : Game) : Game :=
  if keys.s then
    checkDepthRewards
      { g with gameState := { g.gameState with
          depth := min 11000 (g.gameState.depth + 5) } }
  else g

/-- Throttled resource update (`Game.update`, resource section):
oxygen decays, energy regenerates, the sonar cooldown ticks down, and a
low-oxygen hint may be shown. -/
def stepResources (now : ℚ) (g : Game) : Game :=
  if now - g.lastResourceUpdate ≥ resourceUpdateInterval then
    let gs := { g.gameState with
      oxygen := max 0 (g.gameState.oxygen - 0.05),
      energy := min 100 (g.gameState.energy + 0.02),
      sonarCooldown := max 0 (g.gameState.sonarCooldown - 0.016) }
    let g1 := { g with gameState := gs, lastResourceUpdate := now }
    if gs.oxygen < 20 ∧ g1.hint = "" then
      showHint "Oxigênio baixo! Colete bolhas de ar!" g1
    else g1
  else g

/-- Monster motion (`Game.update`, monster section): swim wobble from
the pre-move x, velocity integration, edge bounce, sonar visibility. -/
def stepMonsterMotion (inp : TickInput) (g : Game) : Game :=
  { g with monsters := g.monsters.map (fun m =>
      let swimMotion := inp.sinFn (inp.now / 500 + m.x) * 0.5
      let x := m.x + m.velocityX
      let y := m.y + m.velocityY + swimMotion
      let vx := if x < -150 ∨ x > 950 then -m.velocityX else m.velocityX
      { m with x := x, y := y, velocityX := vx,
               visible := g.gameState.sonarActive }) }

/-- Off-screen culling of all three entity lists (`Game.update`). -/
def stepCull (g : Game) : Game :=
  { g with
    monsters := g.monsters.filter (fun m => ¬ m.isOffScreen 800 600 g.gameState.depth),
    obstacles := g.obstacles.filter (fun o => ¬ o.isOffScreen 800 600 g.gameState.depth),
    bubbles := g.bubbles.filter (fun b => ¬ b.isOffScreen 800 600 g.gameState.depth) }

/-- Monster collisions (`Game.update`): run the detector, apply the
per-collision hull damage, and remove the collided monsters. -/
def stepMonsterCollisions (inp : TickInput) (g : Game) : Game :=
  let r := checkMonsterCollisions g.submarine g.monsters g.gameState.depth
             inp.cameraOffset g.cooldown inp.now
  let damage : ℚ := if g.upgrades.reinforcedHull then 7 else 10
  let health := r.1.foldl (fun h _ => max 0 (h - damage)) g.gameState.health
  let g1 := { g with gameState := { g.gameState with health := health },
                     cooldown := r.2,
                     monsters := g.monsters.filter (fun m => m ∉ r.1) }
  if r.1.isEmpty then g1
  else showHint ("-" ++ toString damage ++ " HP - Criatura marinha!") g1

/-- Obstacle collisions (`Game.update`): same shape as the monster
pass, with rock damage. -/
def stepObstacleCollisions (inp : TickInput) (g : Game) : Game :=
  let r := checkObstacleCollisions g.submarine g.obstacles g.gameState.depth
             inp.cameraOffset g.cooldown inp.now
  let damage : ℚ := if g.upgrades.reinforcedHull then 17 else 25
  let health := r.1.foldl (fun h _ => max 0 (h - damage)) g.gameState.health
  let g1 := { g with gameState := { g.gameState with health := health },
                     cooldown := r.2,
                     obstacles := g.obstacles.filter (fun o => o ∉ r.1) }
  if r.1.isEmpty then g1
  else showHint ("-" ++ toString damage ++ " HP - Impacto com rocha!") g1

/-- Bubble collisions (`Game.update`): oxygen gain per collected
bubble, clamped to 100, and removal of the collected bubbles. -/
def stepBubbleCollisions (inp : TickInput) (g : Game) : Game :=
  let r := checkBubbleCollisions g.submarine g.bubbles g.gameState.depth
             inp.cameraOffset g.cooldown
  let g1 :=
    if r.1.length > 0 then
      showHint ("+" ++ toString (15 * (r.1.length : ℚ)) ++ " Oxigênio!")
        { g with gameState := { g.gameState with
            oxygen := min 100 (g.gameState.oxygen + 15 * (r.1.length : ℚ)) } }
    else g
  { g1 with bubbles := g1.bubbles.filter (fun b => b ∉ r.1) }

/-- One monster built by the spawn loop of `Game.spawnMonsters`, with
its sequentially assigned id. -/
def spawnMonsterAt (inp : TickInput) (currentDepth : ℚ) (idStart i : Nat) :
    GameObject :=
  let r := inp.monsterRand i
  let monsterTypes : List String := ["squid", "angler", "viper", "shark"]
  let type := monsterTypes.get ⟨r.typeIdx.val, r.typeIdx.isLt⟩
  let depthMultiplier := 1 + currentDepth / 5000
  let direction : ℚ := if r.dirPositive then 1 else -1
  let baseSpeed : ℚ :=
    if type = "viper" then 1.5 else if type = "shark" then 1.2
    else if type = "squid" then 0.8 else 0.6
  let monster := GameObject.make
    (if direction > 0 then -100 else 900)
    (currentDepth + 600 + r.yRand * 400)
    (if type = "shark" then 150 else if type = "angler" then 100
     else if type = "viper" then 120 else 80)
    (if type = "shark" then 100 else if type = "angler" then 80
     else if type = "viper" then 60 else 80)
    type
  { monster with
    id := idStart + i,
    velocityX := direction * baseSpeed * (1 + currentDepth / 10000),
    velocityY := (r.vyRand - 0.5) * 0.3,
    health := ((if type = "shark" then (200:ℚ) else if type = "angler" then 150
                else if type = "viper" then 120 else 100) * depthMultiplier).floor,
    speed := baseSpeed * (1 + currentDepth / 10000),
    visible := false }

/-- `Game.spawnMonsters`: when enough depth has accumulated since the
last spawn (with a random jitter), spawn a depth-scaled number of
monsters with sequential fresh ids. -/
def spawnMonsters (inp : TickInput) (g : Game) : Game :=
  let currentDepth := g.gameState.depth
  if currentDepth - g.lastSpawnDepth ≥ 400 + inp.spawnJitter * 300 then
    let enemyCount := (min (1 + (currentDepth / 2000).floor) 3).toNat
    { g with
      lastSpawnDepth := currentDepth,
      monsters := g.monsters ++
        (List.range enemyCount).map (spawnMonsterAt inp currentDepth g.nextMonsterId),
      nextMonsterId := g.nextMonsterId + enemyCount }
  else g

/-- `Game.spawnProceduralElements`: low-probability rock and bubble
spawns, each capped by a maximum concurrent count and given a fresh id. -/
def spawnProceduralElements (inp : TickInput) (g : Game) : Game :=
  let currentDepth := g.gameState.depth
  let g1 :=
    if g.obstacles.length < 4 ∧ inp.obstacleRoll then
      let obstacle := { GameObject.make
          (inp.obstacleRand 0 * 700 + 50)
          (currentDepth + 400 + inp.obstacleRand 1 * 400)
          (80 + inp.obstacleRand 2 * 40)
          (80 + inp.obstacleRand 3 * 40)
          "rock" with id := g.nextMonsterId }
      { g with obstacles := g.obstacles ++ [obstacle],
               nextMonsterId := g.nextMonsterId + 1 }
    else g
  if g1.bubbles.length < 5 ∧ inp.bubbleRoll then
    let bubble := { GameObject.make
        (inp.bubbleRand 0 * 750 + 25)
        (currentDepth + 500 + inp.bubbleRand 1 * 300)
        40 40 "bubble" with id := g1.nextMonsterId }
    { g1 with bubbles := g1.bubbles ++ [bubble],
              nextMonsterId := g1.nextMonsterId + 1 }
  else g1

/-- The game-over checks at the end of `Game.update`, in their fixed
priority order: victory at the bottom, then oxygen, then health. -/
def stepTerminal (g : Game) : Game :=
  if g.gameState.depth ≥ 11000 then
    endGame "Vitória! Você alcançou o fundo do abismo!" (g.gameState.score + 10000) g
  else if g.gameState.oxygen ≤ 0 then
    endGame "Oxigênio esgotado!" g.gameState.score g
  else if g.gameState.health ≤ 0 then
    endGame "Submarino destruído!" g.gameState.score g
  else g

/-- The motion phase of a tick: submarine and world scroll, depth and
rewards, throttled resources, monster motion. -/
def motionPhase (inp : TickInput) (g : Game) : Game :=
  stepMonsterMotion inp
    (stepResources inp.now
      (stepDepth inp.keys
        (stepSubmarineAndScroll inp.keys inp.deltaTime g)))

/-- The whole per-tick pipeline of `Game.update` after its early-return
guard, in source order. -/
def updatePipeline (inp : TickInput) (g : Game) : Game :=
  stepTerminal
    (spawnProceduralElements inp
      (spawnMonsters inp
        (stepBubbleCollisions inp
          (stepObstacleCollisions inp
            (stepMonsterCollisions inp
              (stepCull (motionPhase inp g)))))))

/-- `Game.update`: a no-op when the run is over or a menu is open,
otherwise the full tick pipeline. -/
def Game.update (inp : TickInput) (g : Game) : Game :=
  if g.gameOverTriggered ∨ g.menuOpen ≠ none then g
  else updatePipeline inp g

/-- A sequence of detection calls against one cooldown map: each call
supplies an entity list and its `Date.now()` reading, and the map is
threaded from call to call exactly as the single `CollisionDetector`
instance threads it across ticks. Returns the per-call collision
reports and the final map. `detectionStep` is one call of the
sequence. -/
def detectionStep (sub : Submarine) (depth cameraOffset : ℚ)
    (acc : List (List GameObject) × CooldownTable) (call : List GameObject × ℚ) :
    List (List GameObject) × CooldownTable :=
  let r := checkMonsterCollisions sub call.1 depth cameraOffset acc.2 call.2
  (acc.1 ++ [r.1], r.2)

def runDetections (sub : Submarine) (depth cameraOffset : ℚ)
    (calls : List (List GameObject × ℚ)) (t : CooldownTable) :
    List (List GameObject) × CooldownTable :=
  calls.foldl (detectionStep sub depth cameraOffset) ([], t)

/-- The scalar-resource invariant of the game state: health, energy and
oxygen in `[0, 100]`, depth in `[0, 11000]`. -/
def validScalars (gs : GameState) : Prop :=
  0 ≤ gs.oxygen ∧ gs.oxygen ≤ 100 ∧
  0 ≤ gs.energy ∧ gs.energy ≤ 100 ∧
  0 ≤ gs.health ∧ gs.health ≤ 100 ∧
  0 ≤ gs.depth ∧ gs.depth ≤ 11000

/-- The rewards of `rs` that a call of `checkDepthRewards` would claim
at this depth against this claimed set: threshold reached and not yet
claimed. -/
def newlyClaimedFrom (depth : ℚ) (claimed : List ℚ) (rs : List Reward) :
    List Reward :=
  rs.filter
    (fun r => decide (depth ≥ r.depth) && decide (r.depth ∉ claimed))

/-- The rewards a call of `checkDepthRewards` claims: those whose depth
threshold is reached and not yet in the claimed set. -/
def newlyClaimed (g : Game) : List Reward :=
  newlyClaimedFrom g.gameState.depth g.claimedRewards rewardsList

/-- The ids of all live entities across the three lists. -/
def allIds (g : Game) : List Nat :=
  (g.monsters ++ g.obstacles ++ g.bubbles).map GameObject.id

/-- Every live entity's id is below the fresh-id counter. This holds of
the initial state (empty lists) and is preserved by every tick. -/
def idsBounded (g : Game) : Prop :=
  ∀ i ∈ allIds g, i < g.nextMonsterId

/-- The submarine as constructed by the `Game` constructor. -/
def sampleSub : Submarine := Submarine.make 350 270 100 60

/-- A shark at world position overlapping the sample submarine when
`depth = 0` and `cameraOffset = 0`. -/
def sampleShark : GameObject :=
  { GameObject.make 350 (-30) 150 100 "shark" with id := 7 }

/-- A second shark, identical but for its id and x position, also
overlapping the sample submarine. -/
def sampleShark8 : GameObject :=
  { GameObject.make 360 (-30) 150 100 "shark" with id := 8 }

/-- An air bubble overlapping the sample submarine at depth 0. -/
def sampleBubble : GameObject :=
  { GameObject.make 370 (-10) 40 40 "bubble" with id := 9 }

/-- A sample scalar state satisfying the resource invariant. -/
def sampleGameState : GameState :=
  { oxygen := 100, energy := 100, health := 100, depth := 0, score := 0,
    sonarActive := false, sonarCooldown := 0 }

/-- The game state right after the `Game` constructor runs. -/
def sampleGame : Game :=
  { gameState := sampleGameState, submarine := sampleSub,
    monsters := [], obstacles := [], bubbles := [],
    upgrades := { oxygenTank := false, advancedSonar := false,
                  reinforcedHull := false, turboThrust := false },
    nextMonsterId := 1, lastSpawnDepth := 0, lastResourceUpdate := 0,
    gameOverTriggered := false, gameOverReason := "", finalScore := 0,
    menuOpen := none, hint := "", claimedRewards := [], cooldown := [] }

/-- A sample tick input: 16 ms frame, descend key held, all random
rolls fixed. -/
def sampleInput : TickInput :=
  { deltaTime := 16,
    keys := { a := false, d := false, w := false, s := true },
    now := 1000, cameraOffset := 0,
    sinFn := fun _ => 0, spawnJitter := 0,
    monsterRand := fun _ => { typeIdx := 0, dirPositive := true, yRand := 0, vyRand := 0 },
    obstacleRoll := false, obstacleRand := fun _ => 0,
    bubbleRoll := false, bubbleRand := fun _ => 0 }

/-- The obstacle half of `spawnProceduralElements`: spawn a rock when
under the cap and the roll succeeds, with a fresh id. -/
def spawnObstaclePart (inp : TickInput) (g : Game) : Game :=
  if g.obstacles.length < 4 ∧ inp.obstacleRoll then
    let obstacle := { GameObject.make
        (inp.obstacleRand 0 * 700 + 50)
        (g.gameState.depth + 400 + inp.obstacleRand 1 * 400)
        (80 + inp.obstacleRand 2 * 40)
        (80 + inp.obstacleRand 3 * 40)
        "rock" with id := g.nextMonsterId }
    { g with obstacles := g.obstacles ++ [obstacle],
             nextMonsterId := g.nextMonsterId + 1 }
  else g

/-- The bubble half of `spawnProceduralElements`. -/
def spawnBubblePart (inp : TickInput) (g : Game) : Game :=
  if g.bubbles.length < 5 ∧ inp.bubbleRoll then
    let bubble := { GameObject.make
        (inp.bubbleRand 0 * 750 + 25)
        (g.gameState.depth + 500 + inp.bubbleRand 1 * 300)
        40 40 "bubble" with id := g.nextMonsterId }
    { g with bubbles := g.bubbles ++ [bubble],
             nextMonsterId := g.nextMonsterId + 1 }
  else g

/-- A tick stage is id-safe when it never lowers the fresh-id counter,
every id it leaves alive was either already alive or freshly allocated
at or above the old counter, and it keeps every live id below the
counter. -/
def stagePreservesIds (f : Game → Game) : Prop :=
  ∀ g : Game,
    g.nextMonsterId ≤ (f g).nextMonsterId ∧
    (∀ i, i ∈ allIds (f g) → i ∈ allIds g ∨ g.nextMonsterId ≤ i) ∧
    (idsBounded g → idsBounded (f g))

/-- Claim C1: the collision path and the rendering path compute the
identical depth offset `-depth + 300 + cameraOffset`, and the
screen-frame hitbox tested by the collision engine is the world-frame
hitbox with that offset added to its Y coordinate, X, width and height
unchanged. -/
theorem depthOffset_and_screen_hitbox_consistent :
    (∀ depth cameraOffset : ℚ,
        calculateDepthOffset depth cameraOffset =
          rendererDepthOffset depth cameraOffset ∧
        calculateDepthOffset depth cameraOffset = -depth + 300 + cameraOffset)
    ∧ (∀ (obj : GameObject) (depthOffset : ℚ),
        getWorldObjectScreenHitbox obj depthOffset =
          { x := obj.getHitbox.x, y := obj.getHitbox.y + depthOffset,
            width := obj.getHitbox.width, height := obj.getHitbox.height }) :=
  ⟨fun _ _ => ⟨rfl, rfl⟩, fun _ _ => rfl⟩

/-- Claim C8: an entity whose kind tag is none of the six known kinds
gets the full unshrunk bounding rectangle from `getHitbox`, and each
known kind gets its fixed fractional shrink/offset, as a pure function
of kind and the current bounding box. -/
theorem getHitbox_unknown_kind_defaults :
    (∀ obj : GameObject,
        obj.type ≠ "shark" → obj.type ≠ "squid" → obj.type ≠ "angler" →
        obj.type ≠ "viper" → obj.type ≠ "rock" → obj.type ≠ "bubble" →
        obj.getHitbox =
          { x := obj.x, y := obj.y, width := obj.width, height := obj.height })
    ∧ (∀ obj : GameObject, obj.type = "shark" →
        obj.getHitbox =
          { x := obj.x + obj.width * 0.1, y := obj.y + obj.height * 0.2,
            width := obj.width * 0.8, height := obj.height * 0.6 })
    ∧ (∀ obj : GameObject, obj.type = "squid" →
        obj.getHitbox =
          { x := obj.x + obj.width * 0.2, y := obj.y + obj.height * 0.1,
            width := obj.width * 0.6, height := obj.height * 0.8 })
    ∧ (∀ obj : GameObject, obj.type = "angler" →
        obj.getHitbox =
          { x := obj.x + obj.width * 0.15, y := obj.y + obj.height * 0.2,
            width := obj.width * 0.7, height := obj.height * 0.6 })
    ∧ (∀ obj : GameObject, obj.type = "viper" →
        obj.getHitbox =
          { x := obj.x + obj.width * 0.05, y := obj.y + obj.height * 0.1,
            width := obj.width * 0.9, height := obj.height * 0.8 })
    ∧ (∀ obj : GameObject, obj.type = "rock" →
        obj.getHitbox =
          { x := obj.x + obj.width * 0.1, y := obj.y + obj.height * 0.1,
            width := obj.width * 0.8, height := obj.height * 0.8 })
    ∧ (∀ obj : GameObject, obj.type = "bubble" →
        obj.getHitbox =
          { x := obj.x + obj.width * 0.15, y := obj.y + obj.height * 0.15,
            width := obj.width * 0.7, height := obj.height * 0.7 }) := by
  refine ⟨?_, ?_, ?_, ?_, ?_, ?_, ?_⟩ <;> intro obj
  · intro h1 h2 h3 h4 h5 h6
    simp [GameObject.getHitbox, h1, h2, h3, h4, h5, h6]
  all_goals intro h; simp [GameObject.getHitbox, h]

/-- Witness for C8: a kind outside the known enumeration degrades to
the full bounding box. -/
theorem getHitbox_unknown_kind_defaults_witness :
    (GameObject.make 1 2 30 40 "jellyfish").getHitbox =
      { x := 1, y := 2, width := 30, height := 40 } :=
  getHitbox_unknown_kind_defaults.1 (GameObject.make 1 2 30 40 "jellyfish")
    (by decide) (by decide) (by decide) (by decide) (by decide) (by decide)

/-- Claim C10: for nonnegative extents, the hitbox of every kind —
known or unknown — is contained in the entity's bounding box. -/
theorem getHitbox_contained_in_bounding_box :
    ∀ obj : GameObject, 0 ≤ obj.width → 0 ≤ obj.height →
      obj.x ≤ obj.getHitbox.x ∧ obj.y ≤ obj.getHitbox.y ∧
      obj.getHitbox.x + obj.getHitbox.width ≤ obj.x + obj.width ∧
      obj.getHitbox.y + obj.getHitbox.height ≤ obj.y + obj.height := by
  intro obj hw hh
  unfold GameObject.getHitbox
  split_ifs <;> dsimp only <;>
    refine ⟨by linarith, by linarith, by linarith, by linarith⟩

/-- Witness for C10: containment at a concrete shark. -/
theorem getHitbox_contained_in_bounding_box_witness :
    (0:ℚ) ≤ sampleShark.width ∧ (0:ℚ) ≤ sampleShark.height ∧
      sampleShark.x ≤ sampleShark.getHitbox.x ∧
      sampleShark.y ≤ sampleShark.getHitbox.y ∧
      sampleShark.getHitbox.x + sampleShark.getHitbox.width ≤
        sampleShark.x + sampleShark.width ∧
      sampleShark.getHitbox.y + sampleShark.getHitbox.height ≤
        sampleShark.y + sampleShark.height := by
  refine ⟨by decide, by decide, ?_⟩
  have h := getHitbox_contained_in_bounding_box sampleShark (by decide) (by decide)
  exact ⟨h.1, h.2.1, h.2.2.1, h.2.2.2⟩

theorem tableLookup_erase_ne (t : CooldownTable) (i j : Nat) (h : i ≠ j) :
    tableLookup (tableErase t j) i = tableLookup t i := by
  induction t with
  | nil => rfl
  | cons p rest ih =>
    unfold tableErase
    by_cases hp : p.1 = j
    · have hpi : ¬ p.1 = i := fun hx => h ((hx ▸ hp : i = j))
      rw [if_pos hp, ih]
      conv_rhs => unfold tableLookup
      rw [if_neg hpi]
    · rw [if_neg hp]
      unfold tableLookup
      by_cases hpi : p.1 = i
      · rw [if_pos hpi, if_pos hpi]
      · rw [if_neg hpi, if_neg hpi, ih]

theorem tableLookup_append (l1 l2 : CooldownTable) (i : Nat) :
    tableLookup (l1 ++ l2) i =
      (match tableLookup l1 i with
       | some v => some v
       | none => tableLookup l2 i) := by
  induction l1 with
  | nil => simp [tableLookup]
  | cons p rest ih =>
    by_cases hp : p.1 = i <;> simp [tableLookup, hp, ih]

theorem tableLookup_set_ne (t : CooldownTable) (i j : Nat) (v : ℚ) (h : i ≠ j) :
    tableLookup (tableSet t j v) i = tableLookup t i := by
  unfold tableSet
  rw [tableLookup_append, tableLookup_erase_ne t i j h]
  cases hx : tableLookup t i with
  | none =>
    show tableLookup [(j, v)] i = none
    unfold tableLookup
    rw [if_neg (Ne.symm h)]
    rfl
  | some v0 => rfl

theorem isInCollisionCooldown_snd_lookup_ne (t : CooldownTable) (j : Nat) (now : ℚ)
    (i : Nat) (h : i ≠ j) :
    tableLookup (isInCollisionCooldown t j now).2 i = tableLookup t i := by
  unfold isInCollisionCooldown
  cases hx : tableLookup t j with
  | none => rfl
  | some t0 =>
    by_cases hge : now - t0 ≥ cooldownDuration
    · simp [hge, tableLookup_erase_ne t i j h]
    · simp [hge]

theorem collisionStep_eq (hb : Rect) (off now : ℚ)
    (acc : List GameObject × CooldownTable) (obj : GameObject) :
    collisionStep hb off now acc obj =
      if (isInCollisionCooldown acc.2 obj.id now).1 then
        (acc.1, (isInCollisionCooldown acc.2 obj.id now).2)
      else if checkAABB hb (getWorldObjectScreenHitbox obj off) then
        (acc.1 ++ [obj],
         setCollisionCooldown (isInCollisionCooldown acc.2 obj.id now).2 obj.id now)
      else (acc.1, (isInCollisionCooldown acc.2 obj.id now).2) := rfl

theorem collisionStep_lookup_ne (hb : Rect) (off now : ℚ)
    (acc : List GameObject × CooldownTable) (obj : GameObject) (i : Nat)
    (h : obj.id ≠ i) :
    tableLookup (collisionStep hb off now acc obj).2 i = tableLookup acc.2 i := by
  rw [collisionStep_eq]
  have hbase := isInCollisionCooldown_snd_lookup_ne acc.2 obj.id now i (Ne.symm h)
  split_ifs with h1 h2
  · exact hbase
  · simpa [setCollisionCooldown, tableLookup_set_ne _ i obj.id now (Ne.symm h)]
      using hbase
  · exact hbase

theorem collisionStep_fst_from (hb : Rect) (off now : ℚ)
    (acc : List GameObject × CooldownTable) (obj m : GameObject)
    (h : m ∈ (collisionStep hb off now acc obj).1) : m ∈ acc.1 ∨ m = obj := by
  rw [collisionStep_eq] at h
  split_ifs at h with h1 h2
  · exact Or.inl h
  · rcases List.mem_append.mp h with hx | hx
    · exact Or.inl hx
    · exact Or.inr (List.mem_singleton.mp hx)
  · exact Or.inl h

theorem collisionFold_suppress (hb : Rect) (off now : ℚ) (i : Nat) (t0 : ℚ)
    (hwin : now - t0 < cooldownDuration) :
    ∀ (objs : List GameObject) (acc : List GameObject × CooldownTable),
      tableLookup acc.2 i = some t0 → (∀ m ∈ acc.1, m.id ≠ i) →
      (∀ m ∈ (objs.foldl (collisionStep hb off now) acc).1, m.id ≠ i) ∧
      tableLookup (objs.foldl (collisionStep hb off now) acc).2 i = some t0 := by
  intro objs
  induction objs with
  | nil => exact fun acc h1 h2 => ⟨h2, h1⟩
  | cons obj rest ih =>
    intro acc h1 h2
    rw [List.foldl_cons]
    by_cases hobj : obj.id = i
    · have hstep : collisionStep hb off now acc obj = (acc.1, acc.2) := by
        rw [collisionStep_eq]
        have hlook : tableLookup acc.2 obj.id = some t0 := hobj ▸ h1
        have hcd : isInCollisionCooldown acc.2 obj.id now = (true, acc.2) := by
          unfold isInCollisionCooldown
          rw [hlook]
          exact if_neg (not_le.mpr hwin)
        simp [hcd]
      rw [hstep]
      exact ih (acc.1, acc.2) h1 h2
    · refine ih (collisionStep hb off now acc obj)
        (by rw [collisionStep_lookup_ne hb off now acc obj i hobj]; exact h1) ?_
      intro m hm
      rcases collisionStep_fst_from hb off now acc obj m hm with hx | hx
      · exact h2 m hx
      · rw [hx]; exact hobj

theorem collisionFold_fst_mono (hb : Rect) (off now : ℚ) :
    ∀ (objs : List GameObject) (acc : List GameObject × CooldownTable)
      (m : GameObject), m ∈ acc.1 → m ∈ (objs.foldl (collisionStep hb off now) acc).1 := by
  intro objs
  induction objs with
  | nil => exact fun acc m hm => hm
  | cons obj rest ih =>
    intro acc m hm
    rw [List.foldl_cons]
    refine ih _ m ?_
    rw [collisionStep_eq]
    split_ifs
    · exact hm
    · exact List.mem_append.mpr (Or.inl hm)
    · exact hm

theorem collisionFold_fst_from (hb : Rect) (off now : ℚ) :
    ∀ (objs : List GameObject) (acc : List GameObject × CooldownTable)
      (m : GameObject), m ∈ (objs.foldl (collisionStep hb off now) acc).1 →
      m ∈ acc.1 ∨ m ∈ objs := by
  intro objs
  induction objs with
  | nil => exact fun acc m hm => Or.inl hm
  | cons obj rest ih =>
    intro acc m hm
    rw [List.foldl_cons] at hm
    rcases ih _ m hm with hx | hx
    · rcases collisionStep_fst_from hb off now acc obj m hx with hy | hy
      · exact Or.inl hy
      · exact Or.inr (by rw [hy]; exact List.mem_cons_self obj rest)
    · exact Or.inr (List.mem_cons_of_mem obj hx)

theorem collisionFold_rearm (hb : Rect) (off now : ℚ) (i : Nat) (t0 : ℚ)
    (m : GameObject)
    (hge : now - t0 ≥ cooldownDuration)
    (hover : checkAABB hb (getWorldObjectScreenHitbox m off) = true) :
    ∀ (objs : List GameObject) (acc : List GameObject × CooldownTable),
      (objs.map GameObject.id).Nodup → m ∈ objs → m.id = i →
      tableLookup acc.2 i = some t0 →
      m ∈ (objs.foldl (collisionStep hb off now) acc).1 := by
  intro objs
  induction objs with
  | nil => intro acc _ hm; exact absurd hm (List.not_mem_nil m)
  | cons obj rest ih =>
    intro acc hnd hm hmi hlook
    rw [List.map_cons, List.nodup_cons] at hnd
    rw [List.foldl_cons]
    rcases List.mem_cons.mp hm with hx | hx
    · subst hx
      have hlookm : tableLookup acc.2 m.id = some t0 := hmi ▸ hlook
      have hcd : isInCollisionCooldown acc.2 m.id now =
          (false, tableErase acc.2 m.id) := by
        unfold isInCollisionCooldown
        rw [hlookm]
        exact if_pos hge
      have hstep : collisionStep hb off now acc m =
          (acc.1 ++ [m], setCollisionCooldown (tableErase acc.2 m.id) m.id now) := by
        rw [collisionStep_eq, hcd]
        simp [hover]
      rw [hstep]
      exact collisionFold_fst_mono hb off now rest _ m
        (List.mem_append.mpr (Or.inr (List.mem_singleton_self m)))
    · have hobj : obj.id ≠ i := by
        intro he
        refine hnd.1 ?_
        rw [he, ← hmi]
        exact List.mem_map_of_mem GameObject.id hx
      refine ih (collisionStep hb off now acc obj) hnd.2 hx hmi ?_
      rw [collisionStep_lookup_ne hb off now acc obj i hobj]
      exact hlook

theorem detectionFold_suppress (sub : Submarine) (depth camOff : ℚ) (i : Nat)
    (t0 : ℚ) :
    ∀ (calls : List (List GameObject × ℚ))
      (acc : List (List GameObject) × CooldownTable),
      tableLookup acc.2 i = some t0 →
      (∀ c ∈ calls, c.2 - t0 < cooldownDuration) →
      (∀ rep ∈ acc.1, ∀ m ∈ rep, m.id ≠ i) →
      (∀ rep ∈ (calls.foldl (detectionStep sub depth camOff) acc).1,
        ∀ m ∈ rep, m.id ≠ i) ∧
      tableLookup (calls.foldl (detectionStep sub depth camOff) acc).2 i = some t0 := by
  intro calls
  induction calls with
  | nil => exact fun acc h1 _ h3 => ⟨h3, h1⟩
  | cons call rest ih =>
    intro acc h1 h2 h3
    rw [List.foldl_cons]
    have hwin : call.2 - t0 < cooldownDuration := h2 call (List.mem_cons_self call rest)
    have hsup := collisionFold_suppress sub.getScreenHitbox
      (calculateDepthOffset depth camOff) call.2 i t0 hwin call.1 ([], acc.2) h1
      (by intro m hm; exact absurd hm (List.not_mem_nil m))
    refine ih (detectionStep sub depth camOff acc call) ?_
      (fun c hc => h2 c (List.mem_cons_of_mem call hc)) ?_
    · exact hsup.2
    · intro rep hrep m hm
      rcases List.mem_append.mp hrep with hx | hx
      · exact h3 rep hx m hm
      · rw [List.mem_singleton.mp hx] at hm
        exact hsup.1 m hm

/-- Claim C3: once an id is stamped into the cooldown table, no
detection call within 100 ms of the stamp reports a collision for that
id, however often its hitbox overlaps the player's; once 100 ms have
elapsed, the entry is dropped on lookup and the id collides again. -/
theorem cooldown_suppresses_and_rearms :
    (∀ (sub : Submarine) (depth camOff : ℚ) (calls : List (List GameObject × ℚ))
        (t : CooldownTable) (i : Nat) (t0 : ℚ),
        tableLookup t i = some t0 →
        (∀ c ∈ calls, c.2 - t0 < cooldownDuration) →
        ((runDetections sub depth camOff calls t).1.flatten.filter
            (fun m => m.id == i)) = [])
    ∧ (∀ (sub : Submarine) (monsters : List GameObject) (depth camOff : ℚ)
        (t : CooldownTable) (now : ℚ) (i : Nat) (t0 : ℚ) (m : GameObject),
        tableLookup t i = some t0 → now - t0 ≥ cooldownDuration →
        (monsters.map GameObject.id).Nodup → m ∈ monsters → m.id = i →
        checkAABB sub.getScreenHitbox
          (getWorldObjectScreenHitbox m (calculateDepthOffset depth camOff)) = true →
        isInCollisionCooldown t i now = (false, tableErase t i) ∧
        m ∈ (checkMonsterCollisions sub monsters depth camOff t now).1) := by
  constructor
  · intro sub depth camOff calls t i t0 h1 h2
    have haux := detectionFold_suppress sub depth camOff i t0 calls ([], t) h1 h2
      (by intro rep hrep; exact absurd hrep (List.not_mem_nil rep))
    rw [List.filter_eq_nil_iff]
    intro m hm
    rcases List.mem_flatten.mp hm with ⟨rep, hrep, hmrep⟩
    have := haux.1 rep hrep m hmrep
    simpa using this
  · intro sub monsters depth camOff t now i t0 m h1 hge hnd hm hmi hover
    constructor
    · unfold isInCollisionCooldown
      rw [h1]
      exact if_pos hge
    · exact collisionFold_rearm sub.getScreenHitbox
        (calculateDepthOffset depth camOff) now i t0 m hge hover monsters ([], t)
        hnd hm hmi h1

/-- Witness for C3: a shark stamped at time 0 is suppressed by calls at
times 50 and 99, and reported again at time 150. -/
theorem cooldown_suppresses_and_rearms_witness :
    tableLookup [(7, 0)] 7 = some 0 ∧
    ((runDetections sampleSub 0 0 [([sampleShark], 50), ([sampleShark], 99)]
        [(7, 0)]).1.flatten.filter (fun m => m.id == 7)) = [] ∧
    sampleShark ∈ (checkMonsterCollisions sampleSub [sampleShark] 0 0
        [(7, 0)] 150).1 := by
  refine ⟨rfl, ?_, ?_⟩
  · exact cooldown_suppresses_and_rearms.1 sampleSub 0 0
      [([sampleShark], 50), ([sampleShark], 99)] [(7, 0)] 7 0 rfl
      (by intro c hc; fin_cases hc <;> norm_num [cooldownDuration])
  · refine (cooldown_suppresses_and_rearms.2 sampleSub [sampleShark] 0 0
      [(7, 0)] 150 7 0 sampleShark rfl (by norm_num [cooldownDuration])
      (by simp) (List.mem_singleton_self sampleShark) rfl ?_).2
    norm_num [checkAABB, Submarine.getScreenHitbox, getWorldObjectScreenHitbox,
      GameObject.getHitbox, calculateDepthOffset, sampleSub, Submarine.make,
      sampleShark, GameObject.make]

/-- Claim C7: the bubble pass reports a bubble exactly when its screen
hitbox overlaps the player's, on every tick, without reading or writing
the cooldown table (its report is the same for every table, and the
table comes back unchanged); the monster and obstacle passes skip any
entity currently in cooldown. -/
theorem bubbles_never_cooldown_gated :
    (∀ (sub : Submarine) (bubbles : List GameObject) (depth camOff : ℚ)
        (t : CooldownTable),
        (checkBubbleCollisions sub bubbles depth camOff t).2 = t)
    ∧ (∀ (sub : Submarine) (bubbles : List GameObject) (depth camOff : ℚ)
        (t : CooldownTable) (b : GameObject),
        b ∈ (checkBubbleCollisions sub bubbles depth camOff t).1 ↔
          b ∈ bubbles ∧
            checkAABB sub.getScreenHitbox
              (getWorldObjectScreenHitbox b (calculateDepthOffset depth camOff)) = true)
    ∧ (∀ (sub : Submarine) (bubbles : List GameObject) (depth camOff : ℚ)
        (t t' : CooldownTable),
        (checkBubbleCollisions sub bubbles depth camOff t).1 =
          (checkBubbleCollisions sub bubbles depth camOff t').1)
    ∧ (∀ (sub : Submarine) (monsters : List GameObject) (depth camOff : ℚ)
        (t : CooldownTable) (now : ℚ) (i : Nat) (t0 : ℚ),
        tableLookup t i = some t0 → now - t0 < cooldownDuration →
        ((checkMonsterCollisions sub monsters depth camOff t now).1.filter
            (fun m => m.id == i)) = [])
    ∧ (∀ (sub : Submarine) (obstacles : List GameObject) (depth camOff : ℚ)
        (t : CooldownTable) (now : ℚ) (i : Nat) (t0 : ℚ),
        tableLookup t i = some t0 → now - t0 < cooldownDuration →
        ((checkObstacleCollisions sub obstacles depth camOff t now).1.filter
            (fun m => m.id == i)) = []) := by
  refine ⟨fun _ _ _ _ _ => rfl, ?_, fun _ _ _ _ _ _ => rfl, ?_, ?_⟩
  · intro sub bubbles depth camOff t b
    unfold checkBubbleCollisions
    simp [List.mem_filter]
  · intro sub monsters depth camOff t now i t0 h1 h2
    have hsup := collisionFold_suppress sub.getScreenHitbox
      (calculateDepthOffset depth camOff) now i t0 h2 monsters ([], t) h1
      (by intro m hm; exact absurd hm (List.not_mem_nil m))
    rw [List.filter_eq_nil_iff]
    intro m hm
    simpa using hsup.1 m hm
  · intro sub obstacles depth camOff t now i t0 h1 h2
    have hsup := collisionFold_suppress sub.getScreenHitbox
      (calculateDepthOffset depth camOff) now i t0 h2 obstacles ([], t) h1
      (by intro m hm; exact absurd hm (List.not_mem_nil m))
    rw [List.filter_eq_nil_iff]
    intro m hm
    simpa using hsup.1 m hm

/-- Witness for C7: with id 9 freshly stamped in the table, the bubble
pass still reports the overlapping bubble and leaves the table as it
was, while the monster pass reports nothing for a stamped monster id. -/
theorem bubbles_never_cooldown_gated_witness :
    (checkBubbleCollisions sampleSub [sampleBubble] 0 0 [(9, 40)]).2 = [(9, 40)] ∧
    (sampleBubble ∈ (checkBubbleCollisions sampleSub [sampleBubble] 0 0
        [(9, 40)]).1 ↔
      sampleBubble ∈ [sampleBubble] ∧
        checkAABB sampleSub.getScreenHitbox
          (getWorldObjectScreenHitbox sampleBubble (calculateDepthOffset 0 0)) = true) ∧
    tableLookup [(7, 0)] 7 = some 0 ∧
    ((checkMonsterCollisions sampleSub [sampleShark] 0 0 [(7, 0)] 50).1.filter
        (fun m => m.id == 7)) = [] := by
  refine ⟨?_, ?_, rfl, ?_⟩
  · exact bubbles_never_cooldown_gated.1 sampleSub [sampleBubble] 0 0 [(9, 40)]
  · exact bubbles_never_cooldown_gated.2.1 sampleSub [sampleBubble] 0 0 [(9, 40)]
      sampleBubble
  · exact bubbles_never_cooldown_gated.2.2.2.1 sampleSub [sampleShark] 0 0
      [(7, 0)] 50 7 0 rfl (by norm_num [cooldownDuration])

/-- Claim C6: with `speed = moveSpeed * deltaTime`, holding only the up
key yields `worldScrollDelta = +speed`, holding only down yields
`-speed`, neither yields `0`, and holding both lets down win outright
(`-speed`, not `0`); and the updated `screenY` stays within
`[centerY - maxVerticalOffset, centerY + maxVerticalOffset]`. -/
theorem submarine_vertical_motion_contract :
    ∀ (sub : Submarine) (keys : Keys) (deltaTime : ℚ),
      0 ≤ deltaTime → 0 ≤ sub.moveSpeed →
      sub.centerY - sub.maxVerticalOffset ≤ sub.screenY →
      sub.screenY ≤ sub.centerY + sub.maxVerticalOffset →
      (keys.w = true → keys.s = false →
        (sub.update keys deltaTime).2 = sub.moveSpeed * deltaTime) ∧
      (keys.s = true →
        (sub.update keys deltaTime).2 = -(sub.moveSpeed * deltaTime)) ∧
      (keys.w = false → keys.s = false → (sub.update keys deltaTime).2 = 0) ∧
      sub.centerY - sub.maxVerticalOffset ≤ (sub.update keys deltaTime).1.screenY ∧
      (sub.update keys deltaTime).1.screenY ≤ sub.centerY + sub.maxVerticalOffset := by
  intro sub keys deltaTime hdt hms hlo hhi
  have hsp : 0 ≤ sub.moveSpeed * deltaTime := mul_nonneg hms hdt
  have hsp05 : 0 ≤ sub.moveSpeed * deltaTime * 0.5 :=
    mul_nonneg hsp (by norm_num)
  cases hw : keys.w <;> cases hs : keys.s
  · have h2 : (sub.update keys deltaTime).2 = 0 := by
      simp [Submarine.update, hw, hs]
    have h1 : (sub.update keys deltaTime).1.screenY = sub.screenY := by
      simp [Submarine.update, hw, hs]
    refine ⟨?_, ?_, ?_, ?_, ?_⟩
    · intro h _; exact nomatch h
    · intro h; exact nomatch h
    · intro _ _; exact h2
    · rw [h1]; exact hlo
    · rw [h1]; exact hhi
  · have h2 : (sub.update keys deltaTime).2 = -(sub.moveSpeed * deltaTime) := by
      simp [Submarine.update, hw, hs]
    have h1 : (sub.update keys deltaTime).1.screenY =
        min (sub.centerY + sub.maxVerticalOffset)
          (sub.screenY + sub.moveSpeed * deltaTime * 0.5) := by
      simp [Submarine.update, hw, hs]
    refine ⟨?_, ?_, ?_, ?_, ?_⟩
    · intro h _; exact nomatch h
    · intro _; exact h2
    · intro _ h; exact nomatch h
    · rw [h1]; exact le_min (by linarith) (by linarith)
    · rw [h1]; exact min_le_left _ _
  · have h2 : (sub.update keys deltaTime).2 = sub.moveSpeed * deltaTime := by
      simp [Submarine.update, hw, hs]
    have h1 : (sub.update keys deltaTime).1.screenY =
        max (sub.centerY - sub.maxVerticalOffset)
          (sub.screenY - sub.moveSpeed * deltaTime * 0.5) := by
      simp [Submarine.update, hw, hs]
    refine ⟨?_, ?_, ?_, ?_, ?_⟩
    · intro _ _; exact h2
    · intro h; exact nomatch h
    · intro h _; exact nomatch h
    · rw [h1]; exact le_max_left _ _
    · rw [h1]; exact max_le (by linarith) (by linarith)
  · have h2 : (sub.update keys deltaTime).2 = -(sub.moveSpeed * deltaTime) := by
      simp [Submarine.update, hw, hs]
    have h1 : (sub.update keys deltaTime).1.screenY =
        min (sub.centerY + sub.maxVerticalOffset)
          (max (sub.centerY - sub.maxVerticalOffset)
            (sub.screenY - sub.moveSpeed * deltaTime * 0.5) +
           sub.moveSpeed * deltaTime * 0.5) := by
      simp [Submarine.update, hw, hs]
    have hmax1 : sub.centerY - sub.maxVerticalOffset ≤
        max (sub.centerY - sub.maxVerticalOffset)
          (sub.screenY - sub.moveSpeed * deltaTime * 0.5) := le_max_left _ _
    refine ⟨?_, ?_, ?_, ?_, ?_⟩
    · intro _ h; exact nomatch h
    · intro _; exact h2
    · intro h _; exact nomatch h
    · rw [h1]; exact le_min (by linarith) (by linarith)
    · rw [h1]; exact min_le_left _ _

/-- Witness for C6: at the constructed submarine with both vertical
keys held for a 16 ms frame, the returned world scroll delta is
`-speed` — down wins outright. -/
theorem submarine_vertical_motion_contract_witness :
    (0:ℚ) ≤ 16 ∧ (0:ℚ) ≤ sampleSub.moveSpeed ∧
    sampleSub.centerY - sampleSub.maxVerticalOffset ≤ sampleSub.screenY ∧
    sampleSub.screenY ≤ sampleSub.centerY + sampleSub.maxVerticalOffset ∧
    (sampleSub.update { a := false, d := false, w := true, s := true } 16).2 =
      -(sampleSub.moveSpeed * 16) := by
  have h := submarine_vertical_motion_contract sampleSub
    { a := false, d := false, w := true, s := true } 16
    (by norm_num) (by norm_num [sampleSub, Submarine.make])
    (by norm_num [sampleSub, Submarine.make])
    (by norm_num [sampleSub, Submarine.make])
  exact ⟨by norm_num, by norm_num [sampleSub, Submarine.make],
    by norm_num [sampleSub, Submarine.make],
    by norm_num [sampleSub, Submarine.make], h.2.1 rfl⟩

theorem stepSubmarineAndScroll_gameState (keys : Keys) (dt : ℚ) (g : Game) :
    (stepSubmarineAndScroll keys dt g).gameState = g.gameState := by
  unfold stepSubmarineAndScroll
  dsimp only
  split <;> rfl

theorem applyReward_valid (g : Game) (r : Reward) (hr : 0 ≤ r.oxygen)
    (hv : validScalars g.gameState) : validScalars (applyReward g r).gameState := by
  obtain ⟨h1, h2, h3, h4, h5, h6, h7, h8⟩ := hv
  unfold applyReward showHint
  dsimp only
  split
  · exact ⟨le_min (by norm_num) (by linarith), min_le_left _ _,
      h3, h4, h5, h6, h7, h8⟩
  · exact ⟨h1, h2, h3, h4, h5, h6, h7, h8⟩

theorem foldl_applyReward_valid :
    ∀ (rs : List Reward), (∀ r ∈ rs, 0 ≤ r.oxygen) →
      ∀ g : Game, validScalars g.gameState →
        validScalars ((rs.foldl applyReward g)).gameState := by
  intro rs
  induction rs with
  | nil => exact fun _ g hv => hv
  | cons r rest ih =>
    intro hr g hv
    rw [List.foldl_cons]
    exact ih (fun r' hr' => hr r' (List.mem_cons_of_mem r hr'))
      (applyReward g r) (applyReward_valid g r (hr r (List.mem_cons_self r rest)) hv)

theorem unlockUpgrades_gameState (g : Game) :
    (unlockUpgrades g).gameState = g.gameState := by
  unfold unlockUpgrades showHint
  dsimp only
  split_ifs <;> rfl

theorem checkDepthRewards_valid (g : Game) (hv : validScalars g.gameState) :
    validScalars (checkDepthRewards g).gameState := by
  unfold checkDepthRewards
  rw [unlockUpgrades_gameState]
  refine foldl_applyReward_valid rewardsList ?_ g hv
  intro r hr
  fin_cases hr <;> norm_num [rewardsList]

theorem stepDepth_valid (keys : Keys) (g : Game) (hv : validScalars g.gameState) :
    validScalars (stepDepth keys g).gameState := by
  obtain ⟨h1, h2, h3, h4, h5, h6, h7, h8⟩ := hv
  unfold stepDepth
  dsimp only
  split
  · refine checkDepthRewards_valid _ ?_
    exact ⟨h1, h2, h3, h4, h5, h6,
      le_min (by norm_num) (by linarith), min_le_left _ _⟩
  · exact ⟨h1, h2, h3, h4, h5, h6, h7, h8⟩

theorem stepResources_valid (now : ℚ) (g : Game) (hv : validScalars g.gameState) :
    validScalars (stepResources now g).gameState := by
  obtain ⟨h1, h2, h3, h4, h5, h6, h7, h8⟩ := hv
  unfold stepResources showHint
  dsimp only
  split
  · split
    · exact ⟨le_max_left _ _, max_le (by norm_num) (by linarith),
        le_min (by norm_num) (by linarith), min_le_left _ _, h5, h6, h7, h8⟩
    · exact ⟨le_max_left _ _, max_le (by norm_num) (by linarith),
        le_min (by norm_num) (by linarith), min_le_left _ _, h5, h6, h7, h8⟩
  · exact ⟨h1, h2, h3, h4, h5, h6, h7, h8⟩

theorem stepMonsterMotion_gameState (inp : TickInput) (g : Game) :
    (stepMonsterMotion inp g).gameState = g.gameState := rfl

theorem stepCull_gameState (g : Game) : (stepCull g).gameState = g.gameState := rfl

theorem foldl_damage_bounds (d : ℚ) (hd : 0 ≤ d) :
    ∀ (l : List GameObject) (h : ℚ), 0 ≤ h → h ≤ 100 →
      0 ≤ l.foldl (fun h _ => max 0 (h - d)) h ∧
      l.foldl (fun h _ => max 0 (h - d)) h ≤ 100 := by
  intro l
  induction l with
  | nil => exact fun h h0 h100 => ⟨h0, h100⟩
  | cons x rest ih =>
    intro h h0 h100
    rw [List.foldl_cons]
    exact ih (max 0 (h - d)) (le_max_left _ _) (max_le (by norm_num) (by linarith))

theorem stepMonsterCollisions_valid (inp : TickInput) (g : Game)
    (hv : validScalars g.gameState) :
    validScalars (stepMonsterCollisions inp g).gameState := by
  obtain ⟨h1, h2, h3, h4, h5, h6, h7, h8⟩ := hv
  unfold stepMonsterCollisions showHint
  dsimp only
  have hd : (0:ℚ) ≤ if g.upgrades.reinforcedHull then 7 else 10 := by
    split <;> norm_num
  have hb := foldl_damage_bounds _ hd
    (checkMonsterCollisions g.submarine g.monsters g.gameState.depth
      inp.cameraOffset g.cooldown inp.now).1 g.gameState.health h5 h6
  split
  · exact ⟨h1, h2, h3, h4, hb.1, hb.2, h7, h8⟩
  · exact ⟨h1, h2, h3, h4, hb.1, hb.2, h7, h8⟩

theorem stepObstacleCollisions_valid (inp : TickInput) (g : Game)
    (hv : validScalars g.gameState) :
    validScalars (stepObstacleCollisions inp g).gameState := by
  obtain ⟨h1, h2, h3, h4, h5, h6, h7, h8⟩ := hv
  unfold stepObstacleCollisions showHint
  dsimp only
  have hd : (0:ℚ) ≤ if g.upgrades.reinforcedHull then 17 else 25 := by
    split <;> norm_num
  have hb := foldl_damage_bounds _ hd
    (checkObstacleCollisions g.submarine g.obstacles g.gameState.depth
      inp.cameraOffset g.cooldown inp.now).1 g.gameState.health h5 h6
  split
  · exact ⟨h1, h2, h3, h4, hb.1, hb.2, h7, h8⟩
  · exact ⟨h1, h2, h3, h4, hb.1, hb.2, h7, h8⟩

theorem stepBubbleCollisions_valid (inp : TickInput) (g : Game)
    (hv : validScalars g.gameState) :
    validScalars (stepBubbleCollisions inp g).gameState := by
  obtain ⟨h1, h2, h3, h4, h5, h6, h7, h8⟩ := hv
  unfold stepBubbleCollisions showHint
  dsimp only
  have hn : (0:ℚ) ≤ 15 * ((checkBubbleCollisions g.submarine g.bubbles
      g.gameState.depth inp.cameraOffset g.cooldown).1.length : ℚ) := by
    positivity
  split
  · exact ⟨le_min (by norm_num) (by linarith), min_le_left _ _,
      h3, h4, h5, h6, h7, h8⟩
  · exact ⟨h1, h2, h3, h4, h5, h6, h7, h8⟩

theorem spawnMonsters_gameState (inp : TickInput) (g : Game) :
    (spawnMonsters inp g).gameState = g.gameState := by
  unfold spawnMonsters
  dsimp only
  split <;> rfl

theorem spawnProceduralElements_gameState (inp : TickInput) (g : Game) :
    (spawnProceduralElements inp g).gameState = g.gameState := by
  unfold spawnProceduralElements
  dsimp only
  split_ifs <;> rfl

theorem stepTerminal_gameState (g : Game) :
    (stepTerminal g).gameState = g.gameState := by
  unfold stepTerminal endGame
  split_ifs <;> rfl

theorem activateSonar_valid (g : Game) (hv : validScalars g.gameState) :
    validScalars (activateSonar g).gameState := by
  obtain ⟨h1, h2, h3, h4, h5, h6, h7, h8⟩ := hv
  by_cases hmain : g.gameState.energy ≥ 20 ∧ g.gameState.sonarCooldown ≤ 0 ∧
      ¬ g.gameState.sonarActive
  · have hc : (0:ℚ) ≤ if g.upgrades.advancedSonar then 10 else 20 := by
      split <;> norm_num
    have he : activateSonar g = showHint "Sonar ativado!"
        { g with gameState := { g.gameState with
            energy := max 0 (g.gameState.energy -
              (if g.upgrades.advancedSonar then 10 else 20)),
            sonarActive := true, sonarCooldown := 5 } } := by
      unfold activateSonar
      rw [if_pos hmain]
    rw [he]
    exact ⟨h1, h2, le_max_left _ _, max_le (by norm_num) (by linarith),
      h5, h6, h7, h8⟩
  · by_cases h20 : g.gameState.energy < 20
    · have he : activateSonar g = showHint "Energia insuficiente!" g := by
        unfold activateSonar
        rw [if_neg hmain, if_pos h20]
      rw [he]
      exact ⟨h1, h2, h3, h4, h5, h6, h7, h8⟩
    · by_cases hcd : g.gameState.sonarCooldown > 0
      · have he : activateSonar g = showHint "Sonar em cooldown!" g := by
          unfold activateSonar
          rw [if_neg hmain, if_neg h20, if_pos hcd]
        rw [he]
        exact ⟨h1, h2, h3, h4, h5, h6, h7, h8⟩
      · have he : activateSonar g = g := by
          unfold activateSonar
          rw [if_neg hmain, if_neg h20, if_neg hcd]
        rw [he]
        exact ⟨h1, h2, h3, h4, h5, h6, h7, h8⟩

/-- Claim C2: after any tick of `Game.update` — whatever the number of
collisions, rewards, decays or spawns — and after any `activateSonar`,
health, energy and oxygen stay in `[0, 100]` and depth stays in
`[0, 11000]`: every mutation of these scalars clamps. -/
theorem update_preserves_scalar_invariant :
    ∀ (inp : TickInput) (g : Game), validScalars g.gameState →
      validScalars (Game.update inp g).gameState ∧
      validScalars (activateSonar g).gameState := by
  intro inp g hv
  refine ⟨?_, activateSonar_valid g hv⟩
  unfold Game.update
  split
  · exact hv
  · unfold updatePipeline motionPhase
    rw [stepTerminal_gameState, spawnProceduralElements_gameState,
      spawnMonsters_gameState]
    refine stepBubbleCollisions_valid _ _ ?_
    refine stepObstacleCollisions_valid _ _ ?_
    refine stepMonsterCollisions_valid _ _ ?_
    rw [stepCull_gameState, stepMonsterMotion_gameState]
    refine stepResources_valid _ _ ?_
    refine stepDepth_valid _ _ ?_
    rw [stepSubmarineAndScroll_gameState]
    exact hv

/-- Witness for C2: the invariant holds of the freshly constructed game
and is preserved by a sample tick. -/
theorem update_preserves_scalar_invariant_witness :
    validScalars sampleGame.gameState ∧
    validScalars (Game.update sampleInput sampleGame).gameState ∧
    validScalars (activateSonar sampleGame).gameState := by
  have hv : validScalars sampleGame.gameState := by
    refine ⟨?_, ?_, ?_, ?_, ?_, ?_, ?_, ?_⟩ <;>
      norm_num [sampleGame, sampleGameState]
  have h := update_preserves_scalar_invariant sampleInput sampleGame hv
  exact ⟨hv, h.1, h.2⟩

/-- Claim C4: terminal conditions go in fixed priority — victory at
`depth ≥ 11000` beats oxygen depletion, which beats health depletion —
the first satisfied one ends the game; and once game-over is triggered
(or a menu is open) `Game.update` mutates nothing until restart, so
game-over fires at most once per run. -/
theorem terminal_priority_and_finality :
    (∀ (inp : TickInput) (g : Game), g.gameOverTriggered = true →
        Game.update inp g = g)
    ∧ (∀ (inp : TickInput) (g : Game), g.menuOpen ≠ none → Game.update inp g = g)
    ∧ (∀ (reason : String) (score : ℚ) (g : Game),
        (endGame reason score g).gameOverTriggered = true)
    ∧ (∀ g : Game, g.gameState.depth ≥ 11000 →
        stepTerminal g = endGame "Vitória! Você alcançou o fundo do abismo!"
          (g.gameState.score + 10000) g)
    ∧ (∀ g : Game, g.gameState.depth < 11000 → g.gameState.oxygen ≤ 0 →
        stepTerminal g = endGame "Oxigênio esgotado!" g.gameState.score g)
    ∧ (∀ g : Game, g.gameState.depth < 11000 → 0 < g.gameState.oxygen →
        g.gameState.health ≤ 0 →
        stepTerminal g = endGame "Submarino destruído!" g.gameState.score g)
    ∧ (∀ g : Game, g.gameState.depth < 11000 → 0 < g.gameState.oxygen →
        0 < g.gameState.health → stepTerminal g = g)
    ∧ (∀ (inp : TickInput) (g : Game), g.gameOverTriggered = false →
        g.menuOpen = none →
        Game.update inp g =
          stepTerminal (spawnProceduralElements inp (spawnMonsters inp
            (stepBubbleCollisions inp (stepObstacleCollisions inp
              (stepMonsterCollisions inp (stepCull (motionPhase inp g)))))))) := by
  refine ⟨?_, ?_, fun _ _ _ => rfl, ?_, ?_, ?_, ?_, ?_⟩
  · intro inp g h
    unfold Game.update
    rw [if_pos (Or.inl h)]
  · intro inp g h
    unfold Game.update
    rw [if_pos (Or.inr h)]
  · intro g h
    unfold stepTerminal
    rw [if_pos h]
  · intro g h1 h2
    unfold stepTerminal
    rw [if_neg (not_le.mpr h1), if_pos h2]
  · intro g h1 h2 h3
    unfold stepTerminal
    rw [if_neg (not_le.mpr h1), if_neg (not_le.mpr h2), if_pos h3]
  · intro g h1 h2 h3
    unfold stepTerminal
    rw [if_neg (not_le.mpr h1), if_neg (not_le.mpr h2), if_neg (not_le.mpr h3)]
  · intro inp g h1 h2
    unfold Game.update
    rw [if_neg (by simp [h1, h2])]
    rfl

/-- Witness for C4: at the bottom of the abyss with zero oxygen, the
victory branch still wins and awards the 10000-point bonus. -/
theorem terminal_priority_and_finality_witness :
    stepTerminal { sampleGame with
        gameState := { sampleGameState with depth := 11000, oxygen := 0 } } =
      endGame "Vitória! Você alcançou o fundo do abismo!"
        (({ sampleGame with
            gameState := { sampleGameState with depth := 11000, oxygen := 0 }
          } : Game).gameState.score + 10000)
        { sampleGame with
          gameState := { sampleGameState with depth := 11000, oxygen := 0 } } := by
  exact terminal_priority_and_finality.2.2.2.1 _ (by norm_num [sampleGameState])

theorem applyReward_pos (g : Game) (r : Reward)
    (h : g.gameState.depth ≥ r.depth ∧ r.depth ∉ g.claimedRewards) :
    applyReward g r =
      { g with claimedRewards := g.claimedRewards ++ [r.depth],
               gameState := { g.gameState with
                 oxygen := min 100 (g.gameState.oxygen + r.oxygen),
                 score := g.gameState.score + r.points },
               hint := r.message } := by
  unfold applyReward showHint
  rw [if_pos h]

theorem applyReward_neg (g : Game) (r : Reward)
    (h : ¬ (g.gameState.depth ≥ r.depth ∧ r.depth ∉ g.claimedRewards)) :
    applyReward g r = g := by
  unfold applyReward
  rw [if_neg h]

theorem foldl_applyReward_spec :
    ∀ (rs : List Reward) (g : Game), (rs.map Reward.depth).Nodup →
      (rs.foldl applyReward g).claimedRewards =
        g.claimedRewards ++
          (newlyClaimedFrom g.gameState.depth g.claimedRewards rs).map Reward.depth ∧
      (rs.foldl applyReward g).gameState.score =
        g.gameState.score +
          ((newlyClaimedFrom g.gameState.depth g.claimedRewards rs).map
            Reward.points).sum ∧
      (rs.foldl applyReward g).gameState.oxygen =
        (newlyClaimedFrom g.gameState.depth g.claimedRewards rs).foldl
          (fun ox r => min 100 (ox + r.oxygen)) g.gameState.oxygen ∧
      (rs.foldl applyReward g).gameState.depth = g.gameState.depth := by
  intro rs
  induction rs with
  | nil =>
    intro g _
    exact ⟨by simp [newlyClaimedFrom], by simp [newlyClaimedFrom],
      by simp [newlyClaimedFrom], rfl⟩
  | cons r rest ih =>
    intro g hnd
    rw [List.map_cons, List.nodup_cons] at hnd
    rw [List.foldl_cons]
    by_cases hc : g.gameState.depth ≥ r.depth ∧ r.depth ∉ g.claimedRewards
    · rw [applyReward_pos g r hc]
      obtain ⟨e1, e2, e3, e4⟩ := ih
        { g with claimedRewards := g.claimedRewards ++ [r.depth],
                 gameState := { g.gameState with
                   oxygen := min 100 (g.gameState.oxygen + r.oxygen),
                   score := g.gameState.score + r.points },
                 hint := r.message } hnd.2
      have hfil : newlyClaimedFrom g.gameState.depth
          (g.claimedRewards ++ [r.depth]) rest =
          newlyClaimedFrom g.gameState.depth g.claimedRewards rest := by
        unfold newlyClaimedFrom
        refine List.filter_congr ?_
        intro r' hr'
        have hne : r'.depth ≠ r.depth := by
          intro he
          exact hnd.1 (he ▸ List.mem_map_of_mem Reward.depth hr')
        simp [List.mem_append, hne]
      have hcons : newlyClaimedFrom g.gameState.depth g.claimedRewards
          (r :: rest) =
          r :: newlyClaimedFrom g.gameState.depth g.claimedRewards rest := by
        unfold newlyClaimedFrom
        rw [List.filter_cons]
        simp [hc.1, hc.2]
      rw [hcons]
      dsimp only at e1 e2 e3 e4
      rw [hfil] at e1 e2 e3
      refine ⟨?_, ?_, ?_, ?_⟩
      · rw [e1, List.map_cons, List.append_assoc]
        rfl
      · rw [e2, List.map_cons, List.sum_cons, add_assoc]
      · rw [e3, List.foldl_cons]
      · rw [e4]
    · rw [applyReward_neg g r hc]
      have hskip : newlyClaimedFrom g.gameState.depth g.claimedRewards
          (r :: rest) =
          newlyClaimedFrom g.gameState.depth g.claimedRewards rest := by
        unfold newlyClaimedFrom
        rw [List.filter_cons]
        have : ¬ (decide (g.gameState.depth ≥ r.depth) &&
            decide (r.depth ∉ g.claimedRewards)) = true := by
          simpa [Bool.and_eq_true, decide_eq_true_eq] using hc
        rw [if_neg this]
      rw [hskip]
      exact ih g hnd.2

theorem unlockUpgrades_claimedRewards (g : Game) :
    (unlockUpgrades g).claimedRewards = g.claimedRewards := by
  unfold unlockUpgrades showHint
  dsimp only
  split_ifs <;> rfl

theorem rewardsList_depths_nodup : (rewardsList.map Reward.depth).Nodup := by
  simp [rewardsList]

theorem stepSubmarineAndScroll_claimedRewards (keys : Keys) (dt : ℚ) (g : Game) :
    (stepSubmarineAndScroll keys dt g).claimedRewards = g.claimedRewards := by
  unfold stepSubmarineAndScroll
  dsimp only
  split <;> rfl

theorem stepDepth_no_descend (keys : Keys) (g : Game) (h : keys.s = false) :
    stepDepth keys g = g := by
  unfold stepDepth
  rw [if_neg (by simp [h])]

theorem stepResources_claimedRewards (now : ℚ) (g : Game) :
    (stepResources now g).claimedRewards = g.claimedRewards := by
  unfold stepResources showHint
  dsimp only
  split_ifs <;> rfl

theorem stepMonsterMotion_claimedRewards (inp : TickInput) (g : Game) :
    (stepMonsterMotion inp g).claimedRewards = g.claimedRewards := rfl

theorem stepCull_claimedRewards (g : Game) :
    (stepCull g).claimedRewards = g.claimedRewards := rfl

theorem stepMonsterCollisions_claimedRewards (inp : TickInput) (g : Game) :
    (stepMonsterCollisions inp g).claimedRewards = g.claimedRewards := by
  unfold stepMonsterCollisions showHint
  dsimp only
  split <;> rfl

theorem stepObstacleCollisions_claimedRewards (inp : TickInput) (g : Game) :
    (stepObstacleCollisions inp g).claimedRewards = g.claimedRewards := by
  unfold stepObstacleCollisions showHint
  dsimp only
  split <;> rfl

theorem stepBubbleCollisions_claimedRewards (inp : TickInput) (g : Game) :
    (stepBubbleCollisions inp g).claimedRewards = g.claimedRewards := by
  unfold stepBubbleCollisions showHint
  dsimp only
  split_ifs <;> rfl

theorem spawnMonsters_claimedRewards (inp : TickInput) (g : Game) :
    (spawnMonsters inp g).claimedRewards = g.claimedRewards := by
  unfold spawnMonsters
  dsimp only
  split <;> rfl

theorem spawnProceduralElements_claimedRewards (inp : TickInput) (g : Game) :
    (spawnProceduralElements inp g).claimedRewards = g.claimedRewards := by
  unfold spawnProceduralElements
  dsimp only
  split_ifs <;> rfl

theorem stepTerminal_claimedRewards (g : Game) :
    (stepTerminal g).claimedRewards = g.claimedRewards := by
  unfold stepTerminal endGame
  split_ifs <;> rfl

/-- Claim C5: each depth-reward threshold (2000/4000/6000) fires at
most once per run — a claimed threshold stays claimed, a qualifying
unclaimed threshold is claimed on that call, and the oxygen/score
effect of a call is exactly the effect of its newly claimed thresholds,
so already-claimed thresholds contribute nothing; and no tick without
the descend key touches the claimed set. -/
theorem depth_rewards_one_shot :
    (∀ (g : Game) (d : ℚ), d ∈ g.claimedRewards →
        d ∈ (checkDepthRewards g).claimedRewards)
    ∧ (∀ (g : Game) (r : Reward), r ∈ rewardsList →
        g.gameState.depth ≥ r.depth →
        r.depth ∈ (checkDepthRewards g).claimedRewards)
    ∧ (∀ g : Game,
        (checkDepthRewards g).claimedRewards =
          g.claimedRewards ++ (newlyClaimed g).map Reward.depth ∧
        (checkDepthRewards g).gameState.score =
          g.gameState.score + ((newlyClaimed g).map Reward.points).sum ∧
        (checkDepthRewards g).gameState.oxygen =
          (newlyClaimed g).foldl (fun ox r => min 100 (ox + r.oxygen))
            g.gameState.oxygen)
    ∧ (∀ (inp : TickInput) (g : Game), inp.keys.s = false →
        (Game.update inp g).claimedRewards = g.claimedRewards) := by
  have hspec : ∀ g : Game,
      (checkDepthRewards g).claimedRewards =
        g.claimedRewards ++ (newlyClaimed g).map Reward.depth ∧
      (checkDepthRewards g).gameState.score =
        g.gameState.score + ((newlyClaimed g).map Reward.points).sum ∧
      (checkDepthRewards g).gameState.oxygen =
        (newlyClaimed g).foldl (fun ox r => min 100 (ox + r.oxygen))
          g.gameState.oxygen := by
    intro g
    obtain ⟨e1, e2, e3, _⟩ :=
      foldl_applyReward_spec rewardsList g rewardsList_depths_nodup
    unfold checkDepthRewards
    rw [unlockUpgrades_claimedRewards, unlockUpgrades_gameState]
    exact ⟨e1, e2, e3⟩
  refine ⟨?_, ?_, hspec, ?_⟩
  · intro g d hd
    rw [(hspec g).1]
    exact List.mem_append.mpr (Or.inl hd)
  · intro g r hr hdep
    by_cases hd : r.depth ∈ g.claimedRewards
    · rw [(hspec g).1]
      exact List.mem_append.mpr (Or.inl hd)
    · rw [(hspec g).1]
      refine List.mem_append.mpr (Or.inr ?_)
      refine List.mem_map_of_mem Reward.depth ?_
      unfold newlyClaimed newlyClaimedFrom
      refine List.mem_filter.mpr ⟨hr, ?_⟩
      simp [hdep, hd]
  · intro inp g h
    unfold Game.update
    split
    · rfl
    · unfold updatePipeline motionPhase
      rw [stepTerminal_claimedRewards, spawnProceduralElements_claimedRewards,
        spawnMonsters_claimedRewards, stepBubbleCollisions_claimedRewards,
        stepObstacleCollisions_claimedRewards,
        stepMonsterCollisions_claimedRewards, stepCull_claimedRewards,
        stepMonsterMotion_claimedRewards, stepResources_claimedRewards,
        stepDepth_no_descend inp.keys _ h, stepSubmarineAndScroll_claimedRewards]

/-- Witness for C5: reaching depth 2000 claims the 2000 threshold. -/
theorem depth_rewards_one_shot_witness :
    ((2000:ℚ)) ∈ (checkDepthRewards { sampleGame with
        gameState := { sampleGameState with depth := 2000 } }).claimedRewards := by
  have h := depth_rewards_one_shot.2.1
    { sampleGame with gameState := { sampleGameState with depth := 2000 } }
    { depth := 2000, oxygen := 20, points := 500,
      message := "Zona Batial alcançada!" }
    (by simp [rewardsList]) (by norm_num [sampleGameState])
  exact h

theorem stagePreservesIds_of_eq (f : Game → Game)
    (h : ∀ g, allIds (f g) = allIds g ∧ (f g).nextMonsterId = g.nextMonsterId) :
    stagePreservesIds f := by
  intro g
  obtain ⟨e1, e2⟩ := h g
  refine ⟨le_of_eq e2.symm, fun i hi => Or.inl (e1 ▸ hi), fun hb i hi => ?_⟩
  rw [e1] at hi
  rw [e2]
  exact hb i hi

theorem stagePreservesIds_of_subset (f : Game → Game)
    (h : ∀ g, (∀ i, i ∈ allIds (f g) → i ∈ allIds g) ∧
      (f g).nextMonsterId = g.nextMonsterId) :
    stagePreservesIds f := by
  intro g
  obtain ⟨hsub, e2⟩ := h g
  refine ⟨le_of_eq e2.symm, fun i hi => Or.inl (hsub i hi), fun hb i hi => ?_⟩
  rw [e2]
  exact hb i (hsub i hi)

theorem stagePreservesIds_comp (f h : Game → Game)
    (hf : stagePreservesIds f) (hh : stagePreservesIds h) :
    stagePreservesIds (fun g => h (f g)) := by
  intro g
  obtain ⟨a1, a2, a3⟩ := hf g
  obtain ⟨b1, b2, b3⟩ := hh (f g)
  refine ⟨le_trans a1 b1, ?_, fun hb => b3 (a3 hb)⟩
  intro i hi
  rcases b2 i hi with hx | hx
  · exact a2 i hx
  · exact Or.inr (le_trans a1 hx)

theorem map_id_shift (w : ℚ) (l : List GameObject) :
    (l.map (fun m => { m with y := m.y + w })).map GameObject.id =
      l.map GameObject.id := by
  rw [List.map_map]
  rfl

theorem stepSubmarineAndScroll_ids (keys : Keys) (dt : ℚ) :
    stagePreservesIds (stepSubmarineAndScroll keys dt) := by
  refine stagePreservesIds_of_eq _ ?_
  intro g
  unfold stepSubmarineAndScroll
  dsimp only
  split
  · constructor
    · unfold allIds
      dsimp only
      rw [List.map_append, List.map_append, map_id_shift, map_id_shift,
        map_id_shift, ← List.map_append, ← List.map_append]
    · rfl
  · exact ⟨rfl, rfl⟩

theorem applyReward_lists (g : Game) (r : Reward) :
    (applyReward g r).monsters = g.monsters ∧
    (applyReward g r).obstacles = g.obstacles ∧
    (applyReward g r).bubbles = g.bubbles ∧
    (applyReward g r).nextMonsterId = g.nextMonsterId := by
  unfold applyReward showHint
  dsimp only
  split <;> exact ⟨rfl, rfl, rfl, rfl⟩

theorem foldl_applyReward_lists :
    ∀ (rs : List Reward) (g : Game),
      (rs.foldl applyReward g).monsters = g.monsters ∧
      (rs.foldl applyReward g).obstacles = g.obstacles ∧
      (rs.foldl applyReward g).bubbles = g.bubbles ∧
      (rs.foldl applyReward g).nextMonsterId = g.nextMonsterId := by
  intro rs
  induction rs with
  | nil => exact fun g => ⟨rfl, rfl, rfl, rfl⟩
  | cons r rest ih =>
    intro g
    rw [List.foldl_cons]
    obtain ⟨a1, a2, a3, a4⟩ := applyReward_lists g r
    obtain ⟨b1, b2, b3, b4⟩ := ih (applyReward g r)
    exact ⟨b1.trans a1, b2.trans a2, b3.trans a3, b4.trans a4⟩

theorem unlockUpgrades_lists (g : Game) :
    (unlockUpgrades g).monsters = g.monsters ∧
    (unlockUpgrades g).obstacles = g.obstacles ∧
    (unlockUpgrades g).bubbles = g.bubbles ∧
    (unlockUpgrades g).nextMonsterId = g.nextMonsterId := by
  unfold unlockUpgrades showHint
  dsimp only
  split_ifs <;> exact ⟨rfl, rfl, rfl, rfl⟩

theorem allIds_congr (g g' : Game) (h1 : g'.monsters = g.monsters)
    (h2 : g'.obstacles = g.obstacles) (h3 : g'.bubbles = g.bubbles) :
    allIds g' = allIds g := by
  unfold allIds
  rw [h1, h2, h3]

theorem stepDepth_ids (keys : Keys) : stagePreservesIds (stepDepth keys) := by
  refine stagePreservesIds_of_eq _ ?_
  intro g
  unfold stepDepth
  split
  · unfold checkDepthRewards
    obtain ⟨a1, a2, a3, a4⟩ := foldl_applyReward_lists rewardsList
      { g with gameState := { g.gameState with
          depth := min 11000 (g.gameState.depth + 5) } }
    obtain ⟨b1, b2, b3, b4⟩ := unlockUpgrades_lists
      (rewardsList.foldl applyReward
        { g with gameState := { g.gameState with
            depth := min 11000 (g.gameState.depth + 5) } })
    exact ⟨allIds_congr _ _ (b1.trans a1) (b2.trans a2) (b3.trans a3),
      b4.trans a4⟩
  · exact ⟨rfl, rfl⟩

theorem stepResources_ids (now : ℚ) : stagePreservesIds (stepResources now) := by
  refine stagePreservesIds_of_eq _ ?_
  intro g
  unfold stepResources showHint
  dsimp only
  split_ifs <;> exact ⟨rfl, rfl⟩

theorem stepMonsterMotion_ids (inp : TickInput) :
    stagePreservesIds (stepMonsterMotion inp) := by
  refine stagePreservesIds_of_eq _ ?_
  intro g
  refine ⟨?_, rfl⟩
  unfold stepMonsterMotion allIds
  dsimp only
  simp only [List.map_append, List.map_map]
  rfl

theorem stepTerminal_ids : stagePreservesIds stepTerminal := by
  refine stagePreservesIds_of_eq _ ?_
  intro g
  unfold stepTerminal endGame
  split_ifs <;> exact ⟨rfl, rfl⟩

theorem stepCull_ids : stagePreservesIds stepCull := by
  refine stagePreservesIds_of_subset _ ?_
  intro g
  refine ⟨?_, rfl⟩
  intro i hi
  unfold stepCull at hi
  unfold allIds at hi ⊢
  dsimp only at hi
  simp only [List.map_append, List.mem_append, List.mem_map] at hi ⊢
  rcases hi with (⟨m, hm, he⟩ | ⟨o, ho, he⟩) | ⟨b, hb, he⟩
  · exact Or.inl (Or.inl ⟨m, (List.mem_filter.mp hm).1, he⟩)
  · exact Or.inl (Or.inr ⟨o, (List.mem_filter.mp ho).1, he⟩)
  · exact Or.inr ⟨b, (List.mem_filter.mp hb).1, he⟩

theorem stepMonsterCollisions_fields (inp : TickInput) (g : Game) :
    (stepMonsterCollisions inp g).monsters =
      g.monsters.filter (fun m => m ∉ (checkMonsterCollisions g.submarine
        g.monsters g.gameState.depth inp.cameraOffset g.cooldown inp.now).1) ∧
    (stepMonsterCollisions inp g).obstacles = g.obstacles ∧
    (stepMonsterCollisions inp g).bubbles = g.bubbles ∧
    (stepMonsterCollisions inp g).nextMonsterId = g.nextMonsterId := by
  unfold stepMonsterCollisions showHint
  dsimp only
  split <;> exact ⟨rfl, rfl, rfl, rfl⟩

theorem stepObstacleCollisions_fields (inp : TickInput) (g : Game) :
    (stepObstacleCollisions inp g).monsters = g.monsters ∧
    (stepObstacleCollisions inp g).obstacles =
      g.obstacles.filter (fun o => o ∉ (checkObstacleCollisions g.submarine
        g.obstacles g.gameState.depth inp.cameraOffset g.cooldown inp.now).1) ∧
    (stepObstacleCollisions inp g).bubbles = g.bubbles ∧
    (stepObstacleCollisions inp g).nextMonsterId = g.nextMonsterId := by
  unfold stepObstacleCollisions showHint
  dsimp only
  split <;> exact ⟨rfl, rfl, rfl, rfl⟩

theorem stepBubbleCollisions_fields (inp : TickInput) (g : Game) :
    (stepBubbleCollisions inp g).monsters = g.monsters ∧
    (stepBubbleCollisions inp g).obstacles = g.obstacles ∧
    (stepBubbleCollisions inp g).bubbles =
      g.bubbles.filter (fun b => b ∉ (checkBubbleCollisions g.submarine
        g.bubbles g.gameState.depth inp.cameraOffset g.cooldown).1) ∧
    (stepBubbleCollisions inp g).nextMonsterId = g.nextMonsterId := by
  unfold stepBubbleCollisions showHint
  dsimp only
  split <;> exact ⟨rfl, rfl, rfl, rfl⟩

theorem stepMonsterCollisions_ids (inp : TickInput) :
    stagePreservesIds (stepMonsterCollisions inp) := by
  refine stagePreservesIds_of_subset _ ?_
  intro g
  obtain ⟨f1, f2, f3, f4⟩ := stepMonsterCollisions_fields inp g
  refine ⟨?_, f4⟩
  intro i hi
  unfold allIds at hi ⊢
  rw [f1, f2, f3] at hi
  simp only [List.map_append, List.mem_append, List.mem_map] at hi ⊢
  rcases hi with (⟨m, hm, he⟩ | hx) | hx
  · exact Or.inl (Or.inl ⟨m, (List.mem_filter.mp hm).1, he⟩)
  · exact Or.inl (Or.inr hx)
  · exact Or.inr hx

theorem stepObstacleCollisions_ids (inp : TickInput) :
    stagePreservesIds (stepObstacleCollisions inp) := by
  refine stagePreservesIds_of_subset _ ?_
  intro g
  obtain ⟨f1, f2, f3, f4⟩ := stepObstacleCollisions_fields inp g
  refine ⟨?_, f4⟩
  intro i hi
  unfold allIds at hi ⊢
  rw [f1, f2, f3] at hi
  simp only [List.map_append, List.mem_append, List.mem_map] at hi ⊢
  rcases hi with (hx | ⟨o, ho, he⟩) | hx
  · exact Or.inl (Or.inl hx)
  · exact Or.inl (Or.inr ⟨o, (List.mem_filter.mp ho).1, he⟩)
  · exact Or.inr hx

theorem stepBubbleCollisions_ids (inp : TickInput) :
    stagePreservesIds (stepBubbleCollisions inp) := by
  refine stagePreservesIds_of_subset _ ?_
  intro g
  obtain ⟨f1, f2, f3, f4⟩ := stepBubbleCollisions_fields inp g
  refine ⟨?_, f4⟩
  intro i hi
  unfold allIds at hi ⊢
  rw [f1, f2, f3] at hi
  simp only [List.map_append, List.mem_append, List.mem_map] at hi ⊢
  rcases hi with (hx | hx) | ⟨b, hb, he⟩
  · exact Or.inl (Or.inl hx)
  · exact Or.inl (Or.inr hx)
  · exact Or.inr ⟨b, (List.mem_filter.mp hb).1, he⟩

theorem spawnMonsterAt_id (inp : TickInput) (d : ℚ) (s i : Nat) :
    (spawnMonsterAt inp d s i).id = s + i := rfl

theorem spawnMonsters_ids (inp : TickInput) :
    stagePreservesIds (spawnMonsters inp) := by
  intro g
  unfold spawnMonsters
  dsimp only
  split
  · refine ⟨Nat.le_add_right _ _, ?_, ?_⟩
    · intro i hi
      unfold allIds at hi ⊢
      dsimp only at hi
      simp only [List.map_append, List.mem_append, List.mem_map,
        List.mem_range] at hi ⊢
      rcases hi with ((hx | ⟨m, ⟨j, hj, hje⟩, he⟩) | hx) | hx
      · exact Or.inl (Or.inl (Or.inl hx))
      · refine Or.inr ?_
        rw [← he, ← hje, spawnMonsterAt_id]
        exact Nat.le_add_right _ _
      · exact Or.inl (Or.inl (Or.inr hx))
      · exact Or.inl (Or.inr hx)
    · intro hb i hi
      unfold allIds at hi
      dsimp only at hi ⊢
      simp only [List.map_append, List.mem_append, List.mem_map,
        List.mem_range] at hi
      have hbound : ∀ j, j ∈ allIds g → j < g.nextMonsterId := hb
      rcases hi with ((hx | ⟨m, ⟨j, hj, hje⟩, he⟩) | hx) | hx
      · have := hbound i (by
          unfold allIds
          simp only [List.map_append, List.mem_append, List.mem_map]
          exact Or.inl (Or.inl hx))
        omega
      · rw [← he, ← hje, spawnMonsterAt_id]
        omega
      · have := hbound i (by
          unfold allIds
          simp only [List.map_append, List.mem_append, List.mem_map]
          exact Or.inl (Or.inr hx))
        omega
      · have := hbound i (by
          unfold allIds
          simp only [List.map_append, List.mem_append, List.mem_map]
          exact Or.inr hx)
        omega
  · exact ⟨le_refl _, fun i hi => Or.inl hi, fun hb => hb⟩

theorem spawnProceduralElements_split (inp : TickInput) (g : Game) :
    spawnProceduralElements inp g = spawnBubblePart inp (spawnObstaclePart inp g) := by
  unfold spawnProceduralElements spawnObstaclePart spawnBubblePart
  dsimp only
  split <;> rfl

theorem spawnObstaclePart_ids (inp : TickInput) :
    stagePreservesIds (spawnObstaclePart inp) := by
  intro g
  unfold spawnObstaclePart
  dsimp only
  split
  · refine ⟨Nat.le_succ _, ?_, ?_⟩
    · intro i hi
      unfold allIds at hi ⊢
      dsimp only at hi
      simp only [List.map_append, List.map_cons, List.map_nil, List.mem_append,
        List.mem_singleton, List.mem_map] at hi ⊢
      rcases hi with (hA | hB | hE) | hC
      · exact Or.inl (Or.inl (Or.inl hA))
      · exact Or.inl (Or.inl (Or.inr hB))
      · exact Or.inr (le_of_eq hE.symm)
      · exact Or.inl (Or.inr hC)
    · intro hb i hi
      unfold allIds at hi
      dsimp only at hi ⊢
      simp only [List.map_append, List.map_cons, List.map_nil, List.mem_append,
        List.mem_singleton, List.mem_map] at hi
      rcases hi with (hA | hB | hE) | hC
      · have := hb i (by
          unfold allIds
          simp only [List.map_append, List.mem_append, List.mem_map]
          exact Or.inl (Or.inl hA))
        omega
      · have := hb i (by
          unfold allIds
          simp only [List.map_append, List.mem_append, List.mem_map]
          exact Or.inl (Or.inr hB))
        omega
      · omega
      · have := hb i (by
          unfold allIds
          simp only [List.map_append, List.mem_append, List.mem_map]
          exact Or.inr hC)
        omega
  · exact ⟨le_refl _, fun i hi => Or.inl hi, fun hb => hb⟩

theorem spawnBubblePart_ids (inp : TickInput) :
    stagePreservesIds (spawnBubblePart inp) := by
  intro g
  unfold spawnBubblePart
  dsimp only
  split
  · refine ⟨Nat.le_succ _, ?_, ?_⟩
    · intro i hi
      unfold allIds at hi ⊢
      dsimp only at hi
      simp only [List.map_append, List.map_cons, List.map_nil, List.mem_append,
        List.mem_singleton, List.mem_map] at hi ⊢
      rcases hi with (hA | hB) | hC | hE
      · exact Or.inl (Or.inl (Or.inl hA))
      · exact Or.inl (Or.inl (Or.inr hB))
      · exact Or.inl (Or.inr hC)
      · exact Or.inr (le_of_eq hE.symm)
    · intro hb i hi
      unfold allIds at hi
      dsimp only at hi ⊢
      simp only [List.map_append, List.map_cons, List.map_nil, List.mem_append,
        List.mem_singleton, List.mem_map] at hi
      rcases hi with (hA | hB) | hC | hE
      · have := hb i (by
          unfold allIds
          simp only [List.map_append, List.mem_append, List.mem_map]
          exact Or.inl (Or.inl hA))
        omega
      · have := hb i (by
          unfold allIds
          simp only [List.map_append, List.mem_append, List.mem_map]
          exact Or.inl (Or.inr hB))
        omega
      · have := hb i (by
          unfold allIds
          simp only [List.map_append, List.mem_append, List.mem_map]
          exact Or.inr hC)
        omega
      · omega
  · exact ⟨le_refl _, fun i hi => Or.inl hi, fun hb => hb⟩

theorem spawnProceduralElements_ids (inp : TickInput) :
    stagePreservesIds (spawnProceduralElements inp) := by
  have hcomp := stagePreservesIds_comp (spawnObstaclePart inp)
    (spawnBubblePart inp) (spawnObstaclePart_ids inp) (spawnBubblePart_ids inp)
  intro g
  rw [spawnProceduralElements_split inp g]
  exact hcomp g

theorem update_ids (inp : TickInput) : stagePreservesIds (Game.update inp) := by
  have c1 := stagePreservesIds_comp _ _
    (stepSubmarineAndScroll_ids inp.keys inp.deltaTime) (stepDepth_ids inp.keys)
  have c2 := stagePreservesIds_comp _ _ c1 (stepResources_ids inp.now)
  have c3 := stagePreservesIds_comp _ _ c2 (stepMonsterMotion_ids inp)
  have c4 := stagePreservesIds_comp _ _ c3 stepCull_ids
  have c5 := stagePreservesIds_comp _ _ c4 (stepMonsterCollisions_ids inp)
  have c6 := stagePreservesIds_comp _ _ c5 (stepObstacleCollisions_ids inp)
  have c7 := stagePreservesIds_comp _ _ c6 (stepBubbleCollisions_ids inp)
  have c8 := stagePreservesIds_comp _ _ c7 (spawnMonsters_ids inp)
  have c9 := stagePreservesIds_comp _ _ c8 (spawnProceduralElements_ids inp)
  have c10 := stagePreservesIds_comp _ _ c9 stepTerminal_ids
  intro g
  unfold Game.update
  split
  · exact ⟨le_refl _, fun i hi => Or.inl hi, fun hb => hb⟩
  · exact c10 g

theorem update_eq_pipeline (inp : TickInput) (g : Game)
    (h1 : g.gameOverTriggered = false) (h2 : g.menuOpen = none) :
    Game.update inp g =
      stepTerminal (spawnProceduralElements inp (spawnMonsters inp
        (stepBubbleCollisions inp (stepObstacleCollisions inp
          (stepMonsterCollisions inp (stepCull (motionPhase inp g))))))) := by
  unfold Game.update
  rw [if_neg (by simp [h1, h2])]
  rfl

theorem stepTerminal_monsters (g : Game) :
    (stepTerminal g).monsters = g.monsters := by
  unfold stepTerminal endGame
  split_ifs <;> rfl

theorem spawnObstaclePart_monsters (inp : TickInput) (g : Game) :
    (spawnObstaclePart inp g).monsters = g.monsters := by
  unfold spawnObstaclePart
  dsimp only
  split <;> rfl

theorem spawnBubblePart_monsters (inp : TickInput) (g : Game) :
    (spawnBubblePart inp g).monsters = g.monsters := by
  unfold spawnBubblePart
  dsimp only
  split <;> rfl

theorem spawnProceduralElements_monsters (inp : TickInput) (g : Game) :
    (spawnProceduralElements inp g).monsters = g.monsters := by
  rw [spawnProceduralElements_split, spawnBubblePart_monsters,
    spawnObstaclePart_monsters]

theorem spawnMonsters_monsters_from (inp : TickInput) (g : Game)
    (m' : GameObject) (h : m' ∈ (spawnMonsters inp g).monsters) :
    m' ∈ g.monsters ∨ g.nextMonsterId ≤ m'.id := by
  unfold spawnMonsters at h
  dsimp only at h
  split at h
  · rcases List.mem_append.mp h with hx | hx
    · exact Or.inl hx
    · rcases List.mem_map.mp hx with ⟨j, _, hje⟩
      refine Or.inr ?_
      rw [← hje, spawnMonsterAt_id]
      exact Nat.le_add_right _ _
  · exact Or.inl h

theorem never_reappear_aux :
    ∀ (inps : List TickInput) (g : Game) (r : Nat),
      idsBounded g → r < g.nextMonsterId → r ∉ allIds g →
      idsBounded (inps.foldl (fun s i => Game.update i s) g) ∧
      r < (inps.foldl (fun s i => Game.update i s) g).nextMonsterId ∧
      r ∉ allIds (inps.foldl (fun s i => Game.update i s) g) := by
  intro inps
  induction inps with
  | nil => exact fun g r h1 h2 h3 => ⟨h1, h2, h3⟩
  | cons i rest ih =>
    intro g r h1 h2 h3
    rw [List.foldl_cons]
    obtain ⟨u1, u2, u3⟩ := update_ids i g
    refine ih (Game.update i g) r (u3 h1) (lt_of_lt_of_le h2 u1) ?_
    intro hmem
    rcases u2 r hmem with hx | hx
    · exact h3 hx
    · omega

theorem filter_beq_nil_iff (l : List Nat) (r : Nat) :
    (l.filter (fun j => j == r)) = [] ↔ r ∉ l := by
  rw [List.filter_eq_nil_iff]
  constructor
  · intro h hr
    exact absurd (by simp : (r == r) = true) (h r hr)
  · intro h j hj
    simp only [beq_iff_eq]
    intro he
    exact h (he ▸ hj)

/-- Claim C9: an entity is culled exactly when the off-screen predicate
holds — x outside `[-200, 1000]` or more than 1200 from the depth — and
culling happens in the same tick, before the collision passes, so an
off-screen entity is absent from the post-tick list; and because fresh
ids only count upwards, a removed id never reappears over any sequence
of further ticks. -/
theorem culling_exact_and_ids_never_reappear :
    (∀ (g : Game) (m : GameObject),
        m ∈ (stepCull g).monsters ↔
          m ∈ g.monsters ∧ m.isOffScreen 800 600 g.gameState.depth = false)
    ∧ (∀ (inp : TickInput) (g : Game), g.gameOverTriggered = false →
        g.menuOpen = none →
        Game.update inp g =
          stepTerminal (spawnProceduralElements inp (spawnMonsters inp
            (stepBubbleCollisions inp (stepObstacleCollisions inp
              (stepMonsterCollisions inp (stepCull (motionPhase inp g))))))))
    ∧ (∀ (inp : TickInput) (g : Game) (m : GameObject),
        idsBounded g → g.gameOverTriggered = false → g.menuOpen = none →
        m ∈ (motionPhase inp g).monsters →
        m.isOffScreen 800 600 (motionPhase inp g).gameState.depth = true →
        ((Game.update inp g).monsters.filter (fun m' => m' == m)) = [])
    ∧ (∀ (inps : List TickInput) (g : Game) (r : Nat),
        idsBounded g → r < g.nextMonsterId →
        ((allIds g).filter (fun j => j == r)) = [] →
        ((allIds (inps.foldl (fun s i => Game.update i s) g)).filter
          (fun j => j == r)) = []) := by
  refine ⟨?_, update_eq_pipeline, ?_, ?_⟩
  · intro g m
    constructor
    · intro h
      obtain ⟨h1, h2⟩ := List.mem_filter.mp h
      refine ⟨h1, ?_⟩
      simpa using h2
    · intro h
      exact List.mem_filter.mpr ⟨h.1, by simp [h.2]⟩
  · intro inp g m hb hg1 hg2 hm hoff
    rw [update_eq_pipeline inp g hg1 hg2]
    rw [List.filter_eq_nil_iff]
    intro m' hm'
    simp only [beq_iff_eq]
    intro he
    subst he
    rw [stepTerminal_monsters, spawnProceduralElements_monsters] at hm'
    rcases spawnMonsters_monsters_from inp _ m' hm' with hx | hx
    · rw [(stepBubbleCollisions_fields inp _).1,
        (stepObstacleCollisions_fields inp _).1,
        (stepMonsterCollisions_fields inp _).1] at hx
      have h1m := (List.mem_filter.mp hx).1
      have hcm : (stepCull (motionPhase inp g)).monsters =
          (motionPhase inp g).monsters.filter
            (fun m'' => ¬ m''.isOffScreen 800 600
              (motionPhase inp g).gameState.depth) := rfl
      rw [hcm] at h1m
      have h2m := (List.mem_filter.mp h1m).2
      simp [hoff] at h2m
    · have hmot : stagePreservesIds (fun g => stepMonsterMotion inp
          (stepResources inp.now (stepDepth inp.keys
            (stepSubmarineAndScroll inp.keys inp.deltaTime g)))) :=
        stagePreservesIds_comp _ _ (stagePreservesIds_comp _ _
          (stagePreservesIds_comp _ _
            (stepSubmarineAndScroll_ids inp.keys inp.deltaTime)
            (stepDepth_ids inp.keys))
          (stepResources_ids inp.now)) (stepMonsterMotion_ids inp)
      have hbM : idsBounded (motionPhase inp g) := (hmot g).2.2 hb
      have hmidM : m'.id ∈ allIds (motionPhase inp g) := by
        unfold allIds
        simp only [List.map_append, List.mem_append, List.mem_map]
        exact Or.inl (Or.inl ⟨m', hm, rfl⟩)
      have hlt : m'.id < (motionPhase inp g).nextMonsterId := hbM m'.id hmidM
      have l5 := (stepCull_ids (motionPhase inp g)).1
      have l6 := (stepMonsterCollisions_ids inp
        (stepCull (motionPhase inp g))).1
      have l7 := (stepObstacleCollisions_ids inp
        (stepMonsterCollisions inp (stepCull (motionPhase inp g)))).1
      have l8 := (stepBubbleCollisions_ids inp
        (stepObstacleCollisions inp
          (stepMonsterCollisions inp (stepCull (motionPhase inp g))))).1
      omega
  · intro inps g r hb hr hfil
    rw [filter_beq_nil_iff] at hfil ⊢
    exact (never_reappear_aux inps g r hb hr hfil).2.2

/-- Witness for C9: starting from the freshly constructed game, id 0
(below the fresh counter, absent from the empty lists) never appears
over a sample tick. -/
theorem culling_exact_and_ids_never_reappear_witness :
    idsBounded sampleGame ∧ 0 < sampleGame.nextMonsterId ∧
    ((allIds sampleGame).filter (fun j => j == 0)) = [] ∧
    ((allIds ([sampleInput].foldl (fun s i => Game.update i s)
        sampleGame)).filter (fun j => j == 0)) = [] := by
  have hb : idsBounded sampleGame := by
    intro i hi
    simp [allIds, sampleGame] at hi
  refine ⟨hb, by norm_num [sampleGame], rfl, ?_⟩
  exact culling_exact_and_ids_never_reappear.2.2.2 [sampleInput] sampleGame 0
    hb (by norm_num [sampleGame]) rfl
